import Mathlib

/-!
Shallow embedding of the 0g-da-node batch verification-and-signing pipeline
(src/grpc/src/service.rs, src/server/src/main.rs) and proofs of the frozen
claims about it.

Bytes are modelled as `List Nat` with values below 256.  Machine integers are
`Nat` (with explicit `% 2 ^ 64` masks where overflow matters) or `Int` where
negativity is at issue.  External capabilities (chain state, storage, the
zg-encoder slice verifier) are fields of an `Env` record.
-/

set_option maxRecDepth 8000

/-- 2 ^ 64 - 1, the mask for 64-bit lanes. -/
def mask64 : Nat := 18446744073709551615

/-- List lookup with default 0, used for fixed-size lane states. -/
def lget (s : List Nat) (i : Nat) : Nat := s.getD i 0

/-- Rotate a 64-bit lane left by `n` (0 ≤ n < 64). -/
def rol64 (x n : Nat) : Nat := ((x <<< n) ||| (x >>> (64 - n))) &&& mask64

/-- Interpret a byte list as a little-endian natural number. -/
def bytesLE (bs : List Nat) : Nat := bs.foldr (fun b acc => acc * 256 + b) 0

/-- Interpret a byte list as a big-endian natural number. -/
def bytesBE (bs : List Nat) : Nat := bs.foldl (fun acc b => acc * 256 + b) 0

/-- The 24 Keccak-f[1600] round constants. -/
def keccakRC : List Nat :=
  [1, 32898, 9223372036854808714, 9223372039002292224,
   32907, 2147483649, 9223372039002292353, 9223372036854808585,
   138, 136, 2147516425, 2147483658,
   2147516555, 9223372036854775947, 9223372036854808713, 9223372036854808579,
   9223372036854808578, 9223372036854775936, 32778, 9223372039002259466,
   9223372039002292353, 9223372036854808704, 2147483649, 9223372039002292232]

/-- The standard Keccak rho walk: at step t the lane (x, y) receives the
rotation (t+1)(t+2)/2 mod 64 and the walk moves on to (y, (2x+3y) % 5),
starting from lane (1, 0). -/
def rhoWalkAux : Nat → Nat → Nat → Nat → List (Nat × Nat)
  | 0, _, _, _ => []
  | Nat.succ fuel, t, x, y =>
    (x + 5 * y, (t + 1) * (t + 2) / 2 % 64) :: rhoWalkAux fuel (t + 1) y ((2 * x + 3 * y) % 5)

/-- Keccak rotation offsets indexed by flat lane index `x + 5 * y`, generated
from the rho walk; lane 0 rotates by 0. -/
def keccakRho : List Nat :=
  (List.range 25).map fun i =>
    (((rhoWalkAux 24 0 1 0).filter fun pr => pr.1 == i).map fun pr => pr.2).headD 0

/-- Keccak theta step on a 25-lane state. -/
def keccakTheta (s : List Nat) : List Nat :=
  let c := (List.range 5).map fun x =>
    lget s x ^^^ lget s (x + 5) ^^^ lget s (x + 10) ^^^ lget s (x + 15) ^^^ lget s (x + 20)
  let d := (List.range 5).map fun x =>
    lget c ((x + 4) % 5) ^^^ rol64 (lget c ((x + 1) % 5)) 1
  (List.range 25).map fun i => lget s i ^^^ lget d (i % 5)

/-- Keccak rho and pi steps: lane `x + 5 * y` rotated and moved to
`y + 5 * ((2 x + 3 y) % 5)`, expressed source-indexed per destination. -/
def keccakRhoPi (s : List Nat) : List Nat :=
  (List.range 25).map fun j =>
    let src := (3 * (j / 5) + j % 5) % 5 + 5 * (j % 5)
    rol64 (lget s src) (lget keccakRho src)

/-- Keccak chi step. -/
def keccakChi (b : List Nat) : List Nat :=
  (List.range 25).map fun j =>
    let x := j % 5
    let y := j / 5
    lget b j ^^^ ((lget b ((x + 1) % 5 + 5 * y) ^^^ mask64) &&& lget b ((x + 2) % 5 + 5 * y))

/-- One Keccak-f round: theta, rho, pi, chi, iota with round constant `rc`. -/
def keccakRound (s : List Nat) (rc : Nat) : List Nat :=
  let a := keccakChi (keccakRhoPi (keccakTheta s))
  (lget a 0 ^^^ rc) :: a.drop 1

/-- The full Keccak-f[1600] permutation (24 rounds). -/
def keccakF (s : List Nat) : List Nat := keccakRC.foldl keccakRound s

/-- Little-endian bytes to a 64-bit lane. -/
def bytesToLaneLE (bs : List Nat) : Nat := bytesLE bs

/-- The 17 lanes (rate 1088 bits) of one 136-byte block. -/
def blockLanes (block : List Nat) : List Nat :=
  (List.range 17).map fun i => bytesToLaneLE ((block.drop (8 * i)).take 8)

/-- XOR a 136-byte block into the sponge state. -/
def absorbBlock (s block : List Nat) : List Nat :=
  let lanes := blockLanes block
  (List.range 25).map fun i => lget s i ^^^ lget lanes i

/-- Keccak (pre-SHA3, domain byte 0x01) multi-rate padding to 136-byte blocks,
as used by Ethereum's keccak256. -/
def keccakPad (msg : List Nat) : List Nat :=
  let padLen := 136 - msg.length % 136
  if padLen == 1 then msg ++ [129]
  else msg ++ [1] ++ List.replicate (padLen - 2) 0 ++ [128]

/-- Split a list into chunks of `n`, with explicit fuel for structural
recursion (fuel is instantiated with the list length). -/
def chunksAux (n : Nat) : Nat → List Nat → List (List Nat)
  | 0, _ => []
  | _, [] => []
  | Nat.succ fuel, xs => xs.take n :: chunksAux n fuel (xs.drop n)

/-- A 64-bit lane as 8 little-endian bytes. -/
def laneBytesLE (x : Nat) : List Nat := (List.range 8).map fun i => (x >>> (8 * i)) &&& 255

/-- Keccak-256 of a byte string (the `ethers::utils::keccak256` hash used by
the service), returning the 32-byte digest. -/
def keccak256 (msg : List Nat) : List Nat :=
  ((((chunksAux 136 (keccakPad msg).length (keccakPad msg)).foldl
      (fun s b => keccakF (absorbBlock s b)) (List.replicate 25 0)).take 4).map laneBytesLE).flatten

/-- The BN254 (alt_bn128) base-field modulus, the field of `ark_bn254::Fq`. -/
def fqMod : Nat :=
  21888242871839275222246405745257275088696311157297823662689037894645226208583

/-- Binary modular exponentiation with explicit fuel (structural recursion,
fuel covers exponents below 2 ^ fuel). -/
def powModAux : Nat → Nat → Nat → Nat → Nat
  | 0, _, _, _ => 1
  | Nat.succ fuel, b, e, m =>
    if e == 0 then 1 % m
    else
      let r := powModAux fuel (b * b % m) (e / 2) m
      if e % 2 == 1 then r * b % m else r

/-- `b ^ e % m` for exponents below 2 ^ 256. -/
def powMod (b e m : Nat) : Nat := powModAux 256 (b % m) e m

/-- Field inverse in Fq by Fermat exponentiation. -/
def fqInv (a : Nat) : Nat := powMod a (fqMod - 2) fqMod

/-- Square root in Fq when it exists: since the modulus is 3 mod 4 the
principal candidate is `a ^ ((p + 1) / 4)`; returns `none` when `a` is not a
square. -/
def fqSqrt (a : Nat) : Option Nat :=
  let r := powMod a ((fqMod + 1) / 4) fqMod
  if r * r % fqMod == a % fqMod then some r else none

/-- A point of BN254 G1 in affine coordinates, with an infinity flag, as
`ark_bn254::G1Affine`.  Coordinates are canonical representatives below
`fqMod`. -/
structure G1AffinePoint where
  x : Nat
  y : Nat
  infinity : Bool
deriving DecidableEq, Repr

/-- A point of BN254 G1 in the Jacobian projective coordinates used by
`ark_bn254::G1Projective` (affine x = X / Z ^ 2, y = Y / Z ^ 3). -/
structure G1ProjPoint where
  x : Nat
  y : Nat
  z : Nat
deriving DecidableEq, Repr

/-- The affine point at infinity. -/
def g1Infinity : G1AffinePoint := ⟨0, 0, true⟩

/-- `CurveGroup::into_affine` on Jacobian coordinates: Z = 0 is the point at
infinity, otherwise divide by Z ^ 2 and Z ^ 3. -/
def g1IntoAffine (p : G1ProjPoint) : G1AffinePoint :=
  if p.z % fqMod == 0 then g1Infinity
  else
    let zinv := fqInv (p.z % fqMod)
    let zinv2 := zinv * zinv % fqMod
    ⟨p.x * zinv2 % fqMod, p.y * zinv2 % fqMod * zinv % fqMod, false⟩

/-- `into_group` of an affine point: Jacobian coordinates with Z = 1 (or
Z = 0 at infinity). -/
def g1IntoGroup (p : G1AffinePoint) : G1ProjPoint :=
  if p.infinity then ⟨1, 1, 0⟩ else ⟨p.x, p.y, 1⟩

/-- On-curve test for a non-infinity affine point of BN254 G1:
y ^ 2 = x ^ 3 + 3 over Fq. -/
def g1OnCurveXY (x y : Nat) : Bool :=
  y * y % fqMod == (x * x % fqMod * x + 3) % fqMod

/-- `G1Affine::is_on_curve`: the infinity point is on the curve, otherwise
the affine equation must hold. -/
def is_on_curve (p : G1AffinePoint) : Bool :=
  p.infinity || g1OnCurveXY (p.x % fqMod) (p.y % fqMod)

/-- `G1Affine::is_in_correct_subgroup_assuming_on_curve` for BN254 G1: the
curve has cofactor one, so every on-curve point lies in the prime-order
subgroup and the arkworks implementation for this curve returns true
unconditionally. -/
def is_in_correct_subgroup_assuming_on_curve (_p : G1AffinePoint) : Bool :=
  true

/-- A natural number as 32 big-endian bytes (the `u256_to_u8_array` helper of
the service, applied to `U256::from`). -/
def u256_to_u8_array (v : Nat) : List Nat :=
  (List.range 32).map fun i => (v >>> (8 * (31 - i))) &&& 255

/-- Modelled from the spec: `chain_state::signers_handler::serialize_g1_point`
is not under src/.  Per §4.3 it serializes the affine coordinates as two
32-byte big-endian field values in the normalization the on-chain verifier
uses; modelled as the pair of canonical coordinate values, which
`u256_to_u8_array` then renders big-endian. -/
def serialize_g1_point (p : G1AffinePoint) : Nat × Nat := (p.x, p.y)

/-- Modelled from the spec: try-and-increment search for an x-coordinate whose
curve equation value is a square, with explicit fuel. -/
def mapToG1Aux : Nat → Nat → G1AffinePoint
  | 0, x => ⟨x, 0, false⟩
  | Nat.succ fuel, x =>
    match fqSqrt ((x * x % fqMod * x + 3) % fqMod) with
    | some y => ⟨x, y, false⟩
    | none => mapToG1Aux fuel ((x + 1) % fqMod)

/-- Modelled from the spec: `utils::map_to_g1` is not under src/.  Per §4.3
step 4 it deterministically maps the 32-byte Keccak digest onto the curve:
the digest is read as a big-endian integer reduced mod p, and x is
incremented until x ^ 3 + 3 is a square, whose principal root
(x ^ 3 + 3) ^ ((p + 1) / 4) is taken as y.  This reproduces the regression
vector published in the in-repo test `blob_verified_hash_test`. -/
def map_to_g1 (digest : List Nat) : G1AffinePoint :=
  mapToG1Aux 256 (bytesBE digest % fqMod)

/-- The exact 160-byte packed preimage hashed by `blob_verified_hash`:
root (32B) ++ epoch as 32B big-endian ++ quorum_id as 32B big-endian ++
cx (32B) ++ cy (32B), with no length prefixes (`abi::encode_packed` of
`Token::FixedBytes` values concatenates the raw bytes). -/
def blobVerifiedPreimage (data_root : List Nat) (epoch quorum_id : Nat)
    (erasure_commitment : G1ProjPoint) : List Nat :=
  let g := g1IntoAffine erasure_commitment
  let cx := (serialize_g1_point g).1
  let cy := (serialize_g1_point g).2
  data_root ++ u256_to_u8_array epoch ++ u256_to_u8_array quorum_id ++
    u256_to_u8_array cx ++ u256_to_u8_array cy

/-- `blob_verified_hash` from src/grpc/src/service.rs: Keccak-256 of the
packed concatenation, mapped to a G1 point. -/
def blob_verified_hash (data_root : List Nat) (epoch quorum_id : Nat)
    (erasure_commitment : G1ProjPoint) : G1AffinePoint :=
  map_to_g1 (keccak256 (blobVerifiedPreimage data_root epoch quorum_id erasure_commitment))

/-- The 160-byte golden preimage of the regression test. -/
def goldenPre : List Nat :=
  [17, 17, 17, 17, 17, 17, 17, 17, 17, 17, 17, 17, 17, 17, 17, 17, 17, 17, 17, 17, 17, 17, 17, 17, 17, 17, 17, 17, 17, 17, 17, 17, 0, 0, 0, 0, 0, 0, 0, 0, 0, 0, 0, 0, 0, 0, 0, 0, 0, 0, 0, 0, 0, 0, 0, 0, 0, 0, 0, 0, 0, 0, 0, 1, 0, 0, 0, 0, 0, 0, 0, 0, 0, 0, 0, 0, 0, 0, 0, 0, 0, 0, 0, 0, 0, 0, 0, 0, 0, 0, 0, 0, 0, 0, 0, 2, 0, 0, 0, 0, 0, 0, 0, 0, 0, 0, 0, 0, 0, 0, 0, 0, 0, 0, 0, 0, 0, 0, 0, 0, 0, 0, 0, 0, 0, 0, 0, 1, 0, 0, 0, 0, 0, 0, 0, 0, 0, 0, 0, 0, 0, 0, 0, 0, 0, 0, 0, 0, 0, 0, 0, 0, 0, 0, 0, 0, 0, 0, 0, 2]

/-- The padded golden preimage (two 136-byte blocks). -/
def goldenPad : List Nat :=
  [17, 17, 17, 17, 17, 17, 17, 17, 17, 17, 17, 17, 17, 17, 17, 17, 17, 17, 17, 17, 17, 17, 17, 17, 17, 17, 17, 17, 17, 17, 17, 17, 0, 0, 0, 0, 0, 0, 0, 0, 0, 0, 0, 0, 0, 0, 0, 0, 0, 0, 0, 0, 0, 0, 0, 0, 0, 0, 0, 0, 0, 0, 0, 1, 0, 0, 0, 0, 0, 0, 0, 0, 0, 0, 0, 0, 0, 0, 0, 0, 0, 0, 0, 0, 0, 0, 0, 0, 0, 0, 0, 0, 0, 0, 0, 2, 0, 0, 0, 0, 0, 0, 0, 0, 0, 0, 0, 0, 0, 0, 0, 0, 0, 0, 0, 0, 0, 0, 0, 0, 0, 0, 0, 0, 0, 0, 0, 1, 0, 0, 0, 0, 0, 0, 0, 0, 0, 0, 0, 0, 0, 0, 0, 0, 0, 0, 0, 0, 0, 0, 0, 0, 0, 0, 0, 0, 0, 0, 0, 2, 1, 0, 0, 0, 0, 0, 0, 0, 0, 0, 0, 0, 0, 0, 0, 0, 0, 0, 0, 0, 0, 0, 0, 0, 0, 0, 0, 0, 0, 0, 0, 0, 0, 0, 0, 0, 0, 0, 0, 0, 0, 0, 0, 0, 0, 0, 0, 0, 0, 0, 0, 0, 0, 0, 0, 0, 0, 0, 0, 0, 0, 0, 0, 0, 0, 0, 0, 0, 0, 0, 0, 0, 0, 0, 0, 0, 0, 0, 0, 0, 0, 0, 0, 0, 0, 0, 0, 0, 0, 0, 0, 0, 0, 0, 0, 0, 0, 0, 0, 0, 0, 0, 0, 0, 0, 0, 0, 0, 0, 0, 0, 128]

def goldenB0 : List Nat :=
  [17, 17, 17, 17, 17, 17, 17, 17, 17, 17, 17, 17, 17, 17, 17, 17, 17, 17, 17, 17, 17, 17, 17, 17, 17, 17, 17, 17, 17, 17, 17, 17, 0, 0, 0, 0, 0, 0, 0, 0, 0, 0, 0, 0, 0, 0, 0, 0, 0, 0, 0, 0, 0, 0, 0, 0, 0, 0, 0, 0, 0, 0, 0, 1, 0, 0, 0, 0, 0, 0, 0, 0, 0, 0, 0, 0, 0, 0, 0, 0, 0, 0, 0, 0, 0, 0, 0, 0, 0, 0, 0, 0, 0, 0, 0, 2, 0, 0, 0, 0, 0, 0, 0, 0, 0, 0, 0, 0, 0, 0, 0, 0, 0, 0, 0, 0, 0, 0, 0, 0, 0, 0, 0, 0, 0, 0, 0, 1, 0, 0, 0, 0, 0, 0, 0, 0]
def goldenB1 : List Nat :=
  [0, 0, 0, 0, 0, 0, 0, 0, 0, 0, 0, 0, 0, 0, 0, 0, 0, 0, 0, 0, 0, 0, 0, 2, 1, 0, 0, 0, 0, 0, 0, 0, 0, 0, 0, 0, 0, 0, 0, 0, 0, 0, 0, 0, 0, 0, 0, 0, 0, 0, 0, 0, 0, 0, 0, 0, 0, 0, 0, 0, 0, 0, 0, 0, 0, 0, 0, 0, 0, 0, 0, 0, 0, 0, 0, 0, 0, 0, 0, 0, 0, 0, 0, 0, 0, 0, 0, 0, 0, 0, 0, 0, 0, 0, 0, 0, 0, 0, 0, 0, 0, 0, 0, 0, 0, 0, 0, 0, 0, 0, 0, 0, 0, 0, 0, 0, 0, 0, 0, 0, 0, 0, 0, 0, 0, 0, 0, 0, 0, 0, 0, 0, 0, 0, 0, 128]

def goldenS0 : List Nat :=
  [1229782938247303441, 1229782938247303441, 1229782938247303441, 1229782938247303441, 0, 0, 0, 72057594037927936, 0, 0, 0, 144115188075855872, 0, 0, 0, 72057594037927936, 0, 0, 0, 0, 0, 0, 0, 0, 0]
def goldenS1 : List Nat :=
  [13815842696872049594, 1229783006966788369, 6148914622517040597, 1229782938247311633, 14757395258967641164, 1048576, 8454757563011265877, 3535626359777857809, 7378697217168008806, 6130900292725994837, 6946352065256121958, 2152120141932912093, 12297829382472903338, 8176135003503556469, 9511602413006491648, 6148914690161726801, 3689348815815651891, 14757395258967641544, 1229501463270592529, 3689067340838941491, 11031876905423444377, 14757254530069220556, 1806243720615498001, 5495592548242310212, 13856675333493542092]
def goldenS2 : List Nat :=
  [7852045075072786947, 9427788887392254639, 2106297837136577328, 14117879409691847980, 17218997374585076524, 7397316212094643877, 7792110240281042594, 3842883720574853439, 1877194673980105896, 2682398985443861465, 16847364061456272327, 8256055668115963406, 7496969216372159633, 7259852928157306463, 15585214730605615566, 11087046243187278302, 16909752914689049319, 10818066320308641082, 13913418398743935493, 2065669631654345211, 7549709128568798340, 14432011292775081464, 12810269227994566651, 12581640287831892731, 2521704251293885347]
def goldenS3 : List Nat :=
  [13338552987429160705, 17330967486782634509, 10202398213697163152, 276882662698640437, 18122200789898866038, 16672174642390032591, 13400703140411287806, 15703215045802142968, 14705420632435032488, 10224188465705152677, 17260255423357637892, 12562180364421479075, 17321178906381356871, 1736520773450250475, 12330332104938809980, 11579469942750751685, 17405348171949642876, 4797237110420682428, 17309824956749465530, 2564456954234097194, 5012904022993068621, 7553403348655166762, 10347014318938596226, 17640612464285345800, 5705121708232098006]
def goldenS4 : List Nat :=
  [18212720893559222046, 7375015452819158056, 18382081131694076433, 17064827869812050566, 13501535482474175955, 4729582632609460416, 15284171905051882557, 3657315071530105820, 11141963662319281392, 13180986049279176188, 17087937170540037372, 5347019595604565401, 13881898885299235456, 6053095070500859017, 15941240024063293487, 12050867127793345961, 2693206563032534936, 10310769279975107714, 8177955634060561611, 17221488477123683891, 17723067227614175469, 9683757100623620949, 1490021242506549866, 14474953793909507646, 12833448884519075371]
def goldenS5 : List Nat :=
  [15439722106720915243, 2887123637785553289, 4074112691442157829, 17747129656168933406, 8399095021858048809, 2350377598227678931, 3926117315253780738, 13074737991126695733, 15549294664409248636, 11195992304944836463, 13165109233617310626, 11098800770433574471, 13695590864485169954, 1136867026758956914, 10940986225206173165, 9756772722336067118, 7155067673029198971, 15206459340713514423, 18427580403757497172, 16347742042994947426, 2938890917502984902, 11710027113438686144, 17232738519700284887, 3958459758401792702, 4003375441505908938]
def goldenS6 : List Nat :=
  [17393252751900979846, 16885422659298972832, 6519806142338079173, 7388265215121812939, 13538388771330606060, 17274122716878798210, 15164343681156709056, 315351983699599580, 4481068100312347994, 12452785217660759466, 12860354968728570271, 18244194776647283871, 4539509488394020011, 14044456676920557046, 8414288431188565971, 13706754759818533067, 7969493320624548799, 17455017761178404241, 4262193101046168711, 10007273000515809039, 10368864130247858401, 9246006348529583081, 3127408954310004320, 248418310316702810, 5413352635454553419]
def goldenS7 : List Nat :=
  [9514510798764026070, 13771769009210262312, 6145593251232267560, 4492342364247088777, 7973360692279440730, 12413670730225262012, 17497310815792318121, 3969039892452760144, 9327296036682929229, 15718655112829166839, 49430863515670156, 16642780554479522826, 9805255006540415491, 232250981637014038, 5099771351645677995, 14025026674609417062, 15131746272557095492, 16205794988678419524, 15381394065748559783, 13741521178843981356, 5762672841559663842, 8963832752055153434, 16067092214982113923, 4151669834855076746, 12198717427315357037]
def goldenS8 : List Nat :=
  [13326720857162362914, 9510396788960229865, 5989300962381817632, 4240309283154778212, 3895109461607034164, 11336102502250941858, 2347985924322595435, 5307621561962595882, 2622040067770780240, 1131280846024342892, 9560681998691717486, 725304924223889120, 2639138772404713385, 2011485031765341894, 15878852214148338308, 6191915035455224651, 14018141171489042152, 10818974602646258603, 15685479545265625563, 3685879008697303422, 13598282318219685681, 2273822682720918028, 5992709519455412788, 14691048528062233528, 14318241888802463873]
def goldenS9 : List Nat :=
  [4748327594358907079, 17171642531027324859, 14833302426005169377, 16424817743237253705, 11550100820884395506, 10396199700137460156, 745882734489547171, 16241205217402914313, 7440693828540363260, 951634836008512913, 9168872000187814458, 17959054942745681924, 12755010318854863988, 9281185006224837052, 7872791409139102018, 623435137908854811, 17392404327941701390, 15071036768347762587, 18056920559962515121, 1249754623002628718, 5392592514378945827, 13077203100388753452, 5420852556965871564, 2910114097655607220, 1334028658729235354]
def goldenS10 : List Nat :=
  [3913267647190173603, 10484537473846481442, 1034339313721544035, 17472369814993098715, 13308252641992247268, 3016995064928424883, 15999507767675587844, 1377349382045746325, 1339388079547416048, 11665919514521100633, 4305530722887878872, 6265032592107559823, 1202522289466844533, 93057101865652542, 8511081644558184347, 13709729336778644873, 4124994748272752535, 15461985802943180106, 8786218896090121949, 15329138352673006514, 13830899217682415257, 5627166226308402198, 9192784418343908960, 17570008846099816241, 1969109775518445067]
def goldenS11 : List Nat :=
  [18045912679065582917, 5610072889082019594, 18083622724838480096, 11273390840942033699, 5159920646574083779, 15752056187190627396, 10628172440789737136, 3908213420444883118, 17501835496679145867, 6483590097232173606, 15661086930751286594, 15646675127952310286, 12922385713932594202, 15976620780303612918, 14171274179056606589, 15404040187818755605, 1910115052349615874, 14698433745397944555, 11579535355015881507, 10166586586939755299, 7587470276798004206, 8303811929021088227, 3434060012324693493, 9495467645943079273, 1902453876437824117]
def goldenS12 : List Nat :=
  [12288207842742694147, 454254493042891095, 15936962885772032632, 16555001470192980588, 13391146330580469832, 14929592423093811376, 17017456632959139111, 7257446716947242163, 15854356397143423602, 2030992443088149206, 18437383255331363119, 3813344238739206792, 4668099847287120321, 3081016058497949663, 14983210785763739318, 13968269611911624198, 18277567350376039718, 14716401569806976687, 9028270976943257144, 12944856084741147433, 4402886057446077671, 14927550215326492530, 10954044813779533296, 14466760643250296025, 9568835341282986016]
def goldenS13 : List Nat :=
  [7311487529827060705, 3853829010575375310, 7455831101888259142, 2473309713386462720, 4096514241109597017, 13546815888223259778, 16860752143846997315, 17800556035641604794, 15941735792442391790, 16662617891039536486, 15887533793574242118, 6296403867874677817, 4545733100721583218, 4234616762793719256, 16038392506302263591, 8271528904608663797, 7236419839599933816, 7678483924198619172, 16590892793626394200, 5677772010563216710, 1669371868648586541, 1469729910470093748, 15092325638851022235, 7241947188777434460, 17126226141284316227]
def goldenS14 : List Nat :=
  [14427309515526393221, 535170056760116444, 9075988631370421749, 16440614987237938389, 311403341985405431, 8891747032926955422, 4782225484021219450, 7868195058541546852, 15861011144579835841, 8396569132520039633, 13160982913424961790, 3092411379019067171, 7118454045178722660, 17275876537943518949, 16777300033405289117, 8466311227916015894, 6430338345467132027, 6419807270286014591, 3202620067957135012, 6788400205743816951, 9876101076848009830, 11695498990377573007, 9563182197033392636, 6056130241260305582, 1970404194212092964]
def goldenS15 : List Nat :=
  [11882805847480020367, 11533735038783890657, 11078449686413427961, 17775151324894448874, 2448710151905808656, 7328967392582822723, 2392405126572721604, 1445729033761073318, 14642759141340447987, 14114849755803297659, 4852666815238327817, 818681768007367339, 305436915043450124, 16929460268318993418, 9761510453021066343, 3689813053590145201, 6416437954342423081, 16938038427343547418, 14897385365441146321, 5026119955023350066, 16504525809624844250, 15502705745493431512, 9985503993785890182, 10038932071302211022, 8077118591270876]
def goldenS16 : List Nat :=
  [2232170937602106256, 14830343222520315899, 3821675064514738169, 13938921001453099109, 3422648357928245975, 6782193479272214564, 17274436118639416612, 5632457047617583539, 686108442333906087, 13067519237216255004, 14703334855974022322, 8279032907101966944, 6237927053867752722, 8671300836053885951, 11555480699642782827, 15888762780318848220, 3816292866765943483, 11163174635266304573, 8495176845302856189, 14145912087326900999, 17130439486177054479, 14717025141569222295, 270702336851640298, 10487856959498137079, 6699757056683637541]
def goldenS17 : List Nat :=
  [7831677865746686780, 9065433464741670068, 4102726124785632159, 11434360904995617789, 6922302755861121061, 15564056225643818768, 13011971215928271721, 3693826296320717497, 4021781249424029107, 13853344314964032201, 3754217491126166562, 15572427457631212089, 6796316675011165781, 2300446187300428777, 6831604561345293548, 2535583367131466218, 13023576266395989776, 778292028201183892, 16802435316347588083, 3021844723858980751, 3184717956769173317, 6399860394151534946, 3463962762821391682, 17451082280371482682, 17416322843523120494]
def goldenS18 : List Nat :=
  [2671874513597260090, 13982602146854326805, 17810249731918990706, 1581932218190223812, 2526038079707632940, 2933061249809887909, 4834823540954256612, 7265815707213660022, 6570592836421740994, 7116120029093922177, 17163167738365331118, 1319805551106481829, 13784490953121191093, 12325937285425702558, 10229079349872425636, 8436561318706540583, 8998840516742384005, 1818317186653440512, 9892622559613515365, 15380575767189871545, 12086857650214471285, 5911737935620663222, 14084993514735872996, 6666574013178554329, 6016190725082176430]
def goldenS19 : List Nat :=
  [10961005848926233441, 2525052591885445916, 17241711592671072154, 11947435943043128429, 7434323758977013850, 200916555083431139, 7002282542576473429, 17961466098902639015, 7245082368739213730, 502569978765517677, 12694478226378153787, 8099254209550589800, 10117268809494770377, 2179486946646785853, 5010055855753845508, 11168366395073380754, 4460611235758811713, 2850752551566287646, 12753808347557733083, 10754410016787086900, 5245760842087155477, 17698179887613797553, 5692445856980738640, 11731001821836408153, 3341273385736214866]
def goldenS20 : List Nat :=
  [8242725537065532165, 17780764883498842887, 6610984255419803164, 10591576393412741736, 10975347629960447171, 6614276804161017108, 10971686256846578185, 16027865056432912938, 199790358416595882, 9640577169949228645, 18141715374847605934, 2260851657752972527, 11179201265440527012, 16479737105636202793, 17354316128918015855, 90984084081207945, 9932622434542735918, 4310619131536773532, 15630273734534095496, 59666057491459712, 9510397556498199224, 11454402325455113993, 1770196885233695769, 14202366765721202912, 17713927566020340394]
def goldenS21 : List Nat :=
  [6248773468513946575, 751544491617987849, 13076766085667427943, 2384268666897869056, 16591748229768235843, 16236031566344610114, 7109452467812288704, 4922206031370708515, 851907037874583761, 4448632898012794923, 15184991981980052234, 10854384118609863570, 5539843576672773829, 10833456923930605773, 2332876575157897290, 7618885899375628287, 8267016789533608702, 4760427067249534163, 1134607388048778301, 2867807746276481072, 8917841222540717015, 11498383735728406605, 14774720796677826439, 5536415614580606228, 5849991601027681966]
def goldenS22 : List Nat :=
  [2940540128722376502, 2478421687040947114, 8364932193460892447, 16862560502015227417, 12242556082945355819, 9598436860469932529, 8402894114369225044, 14905104111393308531, 10078940945525615394, 17635537695480309604, 8187490493433877000, 4526976802245944078, 8818972613664101531, 5526401546306968886, 5822767914446710971, 18225719503383889954, 6453617088548992241, 16518908303596904082, 5210941818823071097, 13359356319236796419, 6220068631813796533, 11967145438507268915, 5059021022307218205, 15908734474504854945, 2024145674153458720]
def goldenS23 : List Nat :=
  [12377229373292371508, 15598934536044642370, 15942793224238634673, 17034167266787020671, 15106820932822487839, 18189131543952371020, 8107010754698878291, 11883615547262823767, 14558782186097704764, 10867125070532130211, 3381307217344539509, 9401119134838454287, 9803357503040699514, 2946668434951556840, 3153798397450475498, 11595433274376678354, 10764699533689859881, 3479398133113736764, 6871450839978912638, 3240916317980086310, 11616886981258960801, 6979973307205697103, 5021210163463949508, 9082490468778418930, 349877211077574192]
def goldenS24 : List Nat :=
  [15072639005072040333, 18300311851746924492, 11074351833247594573, 4858541371424655764, 6132038733953867989, 1673691270167507625, 1621578993950297058, 12728205324274075182, 5632832906728741879, 1163481737673794252, 10947611878366440809, 1789763091276848441, 13829712919497767559, 1648841056132627824, 8846837984614186877, 4966458622240003206, 11515915149010218415, 12156036915183249104, 16211583607742745254, 10187946660713458704, 14154260390483369896, 7233748454726443826, 5780432488767807275, 14725326268284107097, 7716215729880785826]
def goldenS25 : List Nat :=
  [15072639005072040333, 18300311851746924492, 11218467021323450445, 4858541371424655765, 6132038733953867989, 1673691270167507625, 1621578993950297058, 12728205324274075182, 5632832906728741879, 1163481737673794252, 10947611878366440809, 1789763091276848441, 13829712919497767559, 1648841056132627824, 8846837984614186877, 4966458622240003206, 2292543112155442607, 12156036915183249104, 16211583607742745254, 10187946660713458704, 14154260390483369896, 7233748454726443826, 5780432488767807275, 14725326268284107097, 7716215729880785826]
def goldenS26 : List Nat :=
  [10710152736881122437, 4738614539704626705, 10116974611455015395, 7884397559200772823, 7515361094851256249, 2055575146382633266, 6230136388478080447, 10429209198568612178, 2041892985375998447, 3816210443361005871, 13315054037319692579, 3112660283010858397, 1919547104220879254, 2176040024452839992, 8477423082881956231, 3221690805605887566, 8046634822242612516, 10813154562839795812, 6980048555981604696, 16740853160581816145, 751970522726724999, 9852365430043732168, 14126841468797325172, 2761704357398786251, 1678325929544628733]
def goldenS27 : List Nat :=
  [17301265364255840837, 11127493656075883834, 10050799344371143912, 16172179601958866179, 2208857679445049489, 18406379065827949378, 10035272494475318723, 16577553339607529742, 15180203274067369791, 12184426823383915905, 813027020274318172, 168810013478009570, 13076571327300381897, 1142444429533866665, 5482606828599963025, 7388993413968795972, 8706285253122871047, 9633978817724541522, 3492556526734976592, 10362277779091984966, 3256454571717935074, 4751878943179081627, 7925758480264090302, 1786833485866715117, 9935842791440347124]
def goldenS28 : List Nat :=
  [15955791009852602482, 7043218968082900279, 2407908223453130457, 12714103272829179794, 3817644435630539995, 9944434968455228249, 12315609209667542232, 3923022653103539012, 724686850204780070, 970753163698686703, 7108791844430003201, 10860827955655669372, 11587869078014205610, 6318885217653371014, 18309320930506068588, 13629677014493687851, 13130580983521542010, 7409504266005214485, 70105667729515095, 5459129608700124404, 8268200110874569998, 7839831972038607094, 14573557698506664503, 11630110217108939059, 13166572002784830321]
def goldenS29 : List Nat :=
  [7613132019926545288, 17276905961534224163, 3104045524048869802, 3151458649723664463, 5674462537673754612, 8226127943176030407, 3449518102115735723, 2586397514679991514, 5378114091598748730, 11485506102382468056, 15502183717636840981, 5808064079135626377, 15644204891668452532, 3068151182009449426, 5179822251607357524, 11877751782061986740, 3576574553751087825, 323335416242579040, 4730036045669936289, 14767046665928560586, 9582780487147554322, 15318989646806672211, 5603101236926955730, 1249558712466376903, 14072973314928722442]
def goldenS30 : List Nat :=
  [855595644584589101, 12338153336169960815, 1769278664399587728, 8611665602274993983, 17843984565398831118, 7686775271280052018, 11904411604445606708, 3436686191636155871, 17200861541994652797, 7259895184104155326, 13069981970391913056, 2397974469885453530, 15255444785647970460, 15881906016399257706, 2987583968627784856, 14096683048284590187, 14290878743018682749, 2672964083009924690, 3039489054595003295, 14766799938063755132, 13480909615465545705, 1080550384754643772, 8030162303473280963, 17021926180495833760, 2752765752800556316]
def goldenS31 : List Nat :=
  [13581189667988469357, 14361035162641394006, 12237580730634994580, 12394153200400526128, 10048557736166866460, 10008091723572126572, 5742297558474779839, 5996951610946555464, 15413717351542850684, 15047594380053933030, 13600774970868074082, 8157326640181206051, 4042558698657558054, 16352550422931158068, 12722129381896542300, 14998562698967865547, 2652355880782447822, 16362104775051811392, 322809655939490547, 5936672696437266215, 17759633048080544070, 10804599684698858210, 13069060461154792699, 6271232452307708401, 18444313555730389939]
def goldenS32 : List Nat :=
  [17882904948282765970, 12455052895825609076, 15179820985297449721, 13121734739397654224, 7779983066940071613, 5859880494844807691, 889609555963544879, 6225328201324483810, 16627417889091801086, 11611192602891768141, 9551128410391122807, 18420291754366654050, 14312208125861970755, 17851645996165075638, 15834076437993013250, 3244956093427614588, 7217574110314014261, 5092261263286959094, 8655167071530616721, 9546314582034441382, 10334938769078467881, 9864590089022936439, 6623802815753642569, 16387881742982563803, 7157599072462834424]
def goldenS33 : List Nat :=
  [7536015921685698888, 8972773319572305779, 16808525392938102217, 16933776620869218974, 16280479652977046591, 1750190258933884443, 9103435305242357120, 18079905484722910194, 11648822344274823433, 13047227704274481938, 13585830385868745363, 7505607003724352581, 15122978462060514437, 5198089534663164839, 8625924476502605463, 9858151305770851493, 7903418636942883512, 6391787102099171120, 4707106918258231218, 103705782429358754, 14527215340828580107, 11541230418086114685, 3372338484774975826, 10147549489828687862, 14216809565200402138]
def goldenS34 : List Nat :=
  [13884658904467934147, 17745441562433764059, 3741459150217678317, 4483639042766109798, 16294559892296729728, 209473041042232386, 1691000505732826018, 12153943408157633960, 9686671185362360995, 1434382138754156984, 3620616532576566606, 13762329281562186224, 2413070728748597276, 6655465297160337108, 1778282707754386027, 3679447632497952288, 8346281662589438739, 14447849572710746676, 12280462113475213035, 17246853374896728432, 2704467809831908628, 2773555296969969481, 16260146244702780001, 17266519918027486363, 2064688585643522154]
def goldenS35 : List Nat :=
  [5378929462702197987, 5408692839441302456, 12344423733525927415, 9993398803931138907, 12408495445976751544, 13033502050653106368, 9435770426418519777, 14075127883324870401, 1710829530478675014, 3971769331306106985, 5548904834413594548, 1994251693110414393, 9960575446335675530, 1489123930623702659, 13194364381761947518, 16688726743777879011, 14048322457522720636, 16204349431532507880, 12450998832351895784, 949295633284765444, 16129418690587717983, 5661637950810125331, 700872408891129015, 1485476405820297850, 11160210483810925743]
def goldenS36 : List Nat :=
  [14714908872047835952, 2218799011803167806, 16072321063112681212, 12079578457384164299, 13862844010315246403, 16252519153460412164, 8545116172788517900, 6099122910388002166, 9216058022535624024, 1935003714264913940, 18195945726696638443, 12457357211939818653, 15948427883261810248, 6868901950998858633, 2374363055867027736, 7403033930855491760, 1589293393264884556, 18136496245476512545, 10170049631462344198, 4640974503779192946, 2712811641245381496, 1483222146967320214, 6439332466250894650, 145635058032392003, 6865537956947636604]
def goldenS37 : List Nat :=
  [2402740848781450967, 3042744821937899832, 9690684652234522084, 15374401582030789988, 14784950342747790831, 12130538424410253971, 6900697096161815480, 13549535691011453470, 2345704022799661964, 7413854113768059574, 14623096476856489900, 12145039978336169764, 5455932439778699177, 11029577058827241320, 7049518520364178033, 14203598387712677977, 17630090851195677197, 11011062661903208283, 1643890324089985010, 3143080465046904326, 15569135465063464709, 2418608269591164705, 10467276506244334944, 8205613694667544181, 13502242225190184185]
def goldenS38 : List Nat :=
  [9088603874773483835, 7708841081102484505, 8627030580892561596, 3710907294079457898, 3669561466973293854, 2118659985634049781, 4726474144257743298, 4911047464562182480, 11335348411312451826, 1244377740003185596, 1732557278035481454, 7663637748248407584, 8978510717298747349, 12368857817867025285, 5704746104013352359, 11557429773977575184, 5871266190396219259, 13933037482351014929, 11803566239962286241, 16151073120481768544, 17184925506316129856, 11930799923865457315, 8289382585031693327, 4660448389718193867, 4521322363989654837]
def goldenS39 : List Nat :=
  [12663107307561865127, 7422775949499102965, 14464031494844777176, 8951223667885741714, 2637388378084641899, 11387516096130447002, 10571695820170188173, 889414510155987278, 16920172050177174845, 95077568235763644, 1885372623541449549, 3404769822102917739, 6103371463365591562, 4259995798188775264, 4523460551670274915, 12172833748985937921, 73059447976124805, 13645516237405380062, 6209489470928900278, 1069823826296558296, 14368586388290687516, 4264926500238893559, 17762224873257060209, 10507318645030288967, 10490154182362375568]
def goldenS40 : List Nat :=
  [5292010536752986625, 6105533688800861518, 2881243056970914970, 13081599654285543216, 380132900771420298, 9694359615265032729, 13957414914635005788, 8015034272776468439, 5724633416547283866, 15652339868178223881, 7501312167535965182, 11332291193909484578, 4817903374678504448, 18176816530567851454, 12370371078146363053, 13653831413051714579, 12464023425482498260, 15801449682619580225, 5209821277865445318, 10214952287951338610, 8897449843802027507, 15787041487609419216, 1540305748551503191, 7992336666113707874, 11536621485707410935]
def goldenS41 : List Nat :=
  [5494038586947102921, 16062038073478610727, 12277072731336860138, 4268621401694545173, 9176664196579509187, 7614472287834794249, 11645712395239005935, 5471973363470142926, 5083641005791795676, 16234955897345247830, 18004097730418553597, 4349944519739238140, 7149875155359693255, 3968949217477610816, 15961995720525297873, 7463137347156364357, 14452505947181561995, 5448211281045767504, 13644453415605924732, 8601668394665146953, 11977834527935630503, 16057454982979812969, 12157403603851608121, 1253462156820389425, 9495106092272825804]
def goldenS42 : List Nat :=
  [15131014989411055044, 4364937981801813277, 5512658278951990241, 11633101580855023997, 6692174106393550759, 13771560184070995006, 15352074559339773992, 2503869236090663559, 15341629018280632607, 14293721640631668236, 1300640877364072666, 16775903291903923452, 11735231986486986551, 107046728095507370, 17421256927143709691, 16544499233202384327, 9038447780307596140, 17203097358394515355, 5349929153612728482, 2340451272230312507, 15892243673463850861, 7766051517059374755, 11140073177053436160, 5613550669906231996, 2511020712267147930]
def goldenS43 : List Nat :=
  [5164962215066077113, 10313381918386038993, 1942225300501174400, 13784123161293629436, 16047345464828509696, 9825274343309676488, 17097433641199537518, 12506276501263160315, 4665212335284643900, 7514003098074768119, 1292622932707765775, 9209514360602844132, 264503366511946601, 12776298021574802904, 12774797950139001622, 10979857029017445953, 2264158872404368231, 5049849243120742195, 7515247875330706846, 12909088445756977533, 3116577458365402899, 1909404208486968762, 12853025070353287882, 53609224477716770, 7955704342822478457]
def goldenS44 : List Nat :=
  [12628979240112091222, 7825923910905520593, 5617592533374042703, 14737756981794124984, 729247347442278843, 9176790801808879592, 5095053170455823590, 6330717976656911703, 6477204093036510621, 11261992070266799078, 15155484359064795350, 7620506987983277365, 13652979423538997156, 2383947122478242075, 16743791426938799619, 1356750584591789854, 14276379035470611419, 9067641763107010666, 7996216206328470552, 14327709840352035580, 16289546048401232850, 10257196602581280342, 2856812849499960017, 11646961970010023781, 15416495526139888931]
def goldenS45 : List Nat :=
  [15384116220467593931, 2568394936382365940, 9937736305393707032, 14254571718250903783, 1034820995560137443, 6454987351697490872, 7519968112138002423, 5851050927720367942, 3403228017970887344, 2092786092844253564, 10266528225250311409, 2968193885117068794, 6888578451485021482, 2897014936814643736, 1177806109920420543, 6527470573984098499, 1251362315342483840, 6699423583069954630, 13534986852008771601, 13893492144185035458, 10268934892264735747, 5556681135400734093, 8565161219320312422, 11794649812092942286, 6505410121231593458]
def goldenS46 : List Nat :=
  [12802756202941635234, 4157330488229358283, 7182602185213727146, 10499503355502966660, 4859151517731606454, 13879429642210425515, 11985501261665069130, 5358474166857345289, 7104923346593411764, 8782943309890847522, 2147800901876994367, 11304679674093297729, 6819315774136816456, 7126610911430153621, 6796449246619241629, 15077994376004092008, 1932049184003490425, 6392115856718059220, 5316124746156175286, 12807642230081393094, 5299685428651438337, 8545734177449647756, 835097990465121637, 6323730068554377188, 2813490213697301911]
def goldenS47 : List Nat :=
  [9169289465962792980, 10995847624606262779, 6046176197062494143, 5066550237010667174, 7754289620266603900, 16316130090697040478, 5959550396688087762, 10007694606363241594, 18182778456370467812, 16998999083534757207, 449091852481402465, 4824214826539595934, 784276088514712462, 16269480506874760919, 14176049359725868384, 6449625940155818164, 695299586572584791, 3641794753149436877, 13059616313375708163, 10053552772950603790, 15345367306050864780, 1103815446673354479, 15670662605304189820, 8974660217837381590, 275568191795147262]
def goldenS48 : List Nat :=
  [8330785082056589981, 2455897620901408083, 18320789797849077531, 11354184557732221450, 4118994696714486311, 2190480672879392817, 5755663118669011495, 18006503889267193606, 9337661611935291543, 1145596301438862136, 6738317708256026155, 5410918001085551917, 11002071099044385488, 261998495334278196, 4201347969327084026, 11311653584294796544, 14072391573396215942, 2804454816629904659, 10659174213592138815, 1862532040241902892, 4562037555877630476, 2665743922680279963, 14168402756436645625, 5655177503386539790, 11908862192329012400]
def goldenS49 : List Nat :=
  [2967219112648786231, 427545543507199884, 13620590567763698175, 11599264940015350742, 17330324673745896635, 9092891259647815181, 5448998819993658570, 7604956182841162331, 9522920052274913401, 1277951008234656883, 1625024945212549164, 6309310394863410779, 10979942088545509705, 16627006244436700156, 5431069286824223548, 9062524091947660405, 9949618175021031068, 13905504464182931081, 5220540130549772767, 6359701973860349134, 13032506936585517377, 11961057177292505029, 13388562109731525735, 10805803534189776646, 4032819068432805373]

theorem goldenAbsorb0 : absorbBlock (List.replicate 25 0) goldenB0 = goldenS0 := by decide
theorem goldenR1 : keccakRound goldenS0 1 = goldenS1 := by decide
theorem goldenR2 : keccakRound goldenS1 32898 = goldenS2 := by decide
theorem goldenR3 : keccakRound goldenS2 9223372036854808714 = goldenS3 := by decide
theorem goldenR4 : keccakRound goldenS3 9223372039002292224 = goldenS4 := by decide
theorem goldenR5 : keccakRound goldenS4 32907 = goldenS5 := by decide
theorem goldenR6 : keccakRound goldenS5 2147483649 = goldenS6 := by decide
theorem goldenR7 : keccakRound goldenS6 9223372039002292353 = goldenS7 := by decide
theorem goldenR8 : keccakRound goldenS7 9223372036854808585 = goldenS8 := by decide
theorem goldenR9 : keccakRound goldenS8 138 = goldenS9 := by decide
theorem goldenR10 : keccakRound goldenS9 136 = goldenS10 := by decide
theorem goldenR11 : keccakRound goldenS10 2147516425 = goldenS11 := by decide
theorem goldenR12 : keccakRound goldenS11 2147483658 = goldenS12 := by decide
theorem goldenR13 : keccakRound goldenS12 2147516555 = goldenS13 := by decide
theorem goldenR14 : keccakRound goldenS13 9223372036854775947 = goldenS14 := by decide
theorem goldenR15 : keccakRound goldenS14 9223372036854808713 = goldenS15 := by decide
theorem goldenR16 : keccakRound goldenS15 9223372036854808579 = goldenS16 := by decide
theorem goldenR17 : keccakRound goldenS16 9223372036854808578 = goldenS17 := by decide
theorem goldenR18 : keccakRound goldenS17 9223372036854775936 = goldenS18 := by decide
theorem goldenR19 : keccakRound goldenS18 32778 = goldenS19 := by decide
theorem goldenR20 : keccakRound goldenS19 9223372039002259466 = goldenS20 := by decide
theorem goldenR21 : keccakRound goldenS20 9223372039002292353 = goldenS21 := by decide
theorem goldenR22 : keccakRound goldenS21 9223372036854808704 = goldenS22 := by decide
theorem goldenR23 : keccakRound goldenS22 2147483649 = goldenS23 := by decide
theorem goldenR24 : keccakRound goldenS23 9223372039002292232 = goldenS24 := by decide
theorem goldenR26 : keccakRound goldenS25 1 = goldenS26 := by decide
theorem goldenR27 : keccakRound goldenS26 32898 = goldenS27 := by decide
theorem goldenR28 : keccakRound goldenS27 9223372036854808714 = goldenS28 := by decide
theorem goldenR29 : keccakRound goldenS28 9223372039002292224 = goldenS29 := by decide
theorem goldenR30 : keccakRound goldenS29 32907 = goldenS30 := by decide
theorem goldenR31 : keccakRound goldenS30 2147483649 = goldenS31 := by decide
theorem goldenR32 : keccakRound goldenS31 9223372039002292353 = goldenS32 := by decide
theorem goldenR33 : keccakRound goldenS32 9223372036854808585 = goldenS33 := by decide
theorem goldenR34 : keccakRound goldenS33 138 = goldenS34 := by decide
theorem goldenR35 : keccakRound goldenS34 136 = goldenS35 := by decide
theorem goldenR36 : keccakRound goldenS35 2147516425 = goldenS36 := by decide
theorem goldenR37 : keccakRound goldenS36 2147483658 = goldenS37 := by decide
theorem goldenR38 : keccakRound goldenS37 2147516555 = goldenS38 := by decide
theorem goldenR39 : keccakRound goldenS38 9223372036854775947 = goldenS39 := by decide
theorem goldenR40 : keccakRound goldenS39 9223372036854808713 = goldenS40 := by decide
theorem goldenR41 : keccakRound goldenS40 9223372036854808579 = goldenS41 := by decide
theorem goldenR42 : keccakRound goldenS41 9223372036854808578 = goldenS42 := by decide
theorem goldenR43 : keccakRound goldenS42 9223372036854775936 = goldenS43 := by decide
theorem goldenR44 : keccakRound goldenS43 32778 = goldenS44 := by decide
theorem goldenR45 : keccakRound goldenS44 9223372039002259466 = goldenS45 := by decide
theorem goldenR46 : keccakRound goldenS45 9223372039002292353 = goldenS46 := by decide
theorem goldenR47 : keccakRound goldenS46 9223372036854808704 = goldenS47 := by decide
theorem goldenR48 : keccakRound goldenS47 2147483649 = goldenS48 := by decide
theorem goldenR49 : keccakRound goldenS48 9223372039002292232 = goldenS49 := by decide
theorem goldenAbsorb1 : absorbBlock goldenS24 goldenB1 = goldenS25 := by decide

theorem goldenF0 : keccakF goldenS0 = goldenS24 := by
  simp only [keccakF, keccakRC, List.foldl_cons, List.foldl_nil,
    goldenR1, goldenR2, goldenR3, goldenR4, goldenR5, goldenR6, goldenR7, goldenR8, goldenR9, goldenR10, goldenR11, goldenR12, goldenR13, goldenR14, goldenR15, goldenR16, goldenR17, goldenR18, goldenR19, goldenR20, goldenR21, goldenR22, goldenR23, goldenR24]

theorem goldenF1 : keccakF goldenS25 = goldenS49 := by
  simp only [keccakF, keccakRC, List.foldl_cons, List.foldl_nil,
    goldenR26, goldenR27, goldenR28, goldenR29, goldenR30, goldenR31, goldenR32, goldenR33, goldenR34, goldenR35, goldenR36, goldenR37, goldenR38, goldenR39, goldenR40, goldenR41, goldenR42, goldenR43, goldenR44, goldenR45, goldenR46, goldenR47, goldenR48, goldenR49]

/-- The golden Keccak-256 digest. -/
def goldenDigest : List Nat :=
  [55, 65, 46, 220, 15, 174, 45, 41, 140, 71, 12, 22, 104, 242, 238, 5, 255, 97, 151, 214, 244, 14, 6, 189, 214, 243, 65, 229, 1, 222, 248, 160]

/-- Assembly of the per-round checkpoints: the Keccak-256 digest of the
golden preimage. -/
theorem golden_keccak : keccak256 goldenPre = goldenDigest := by
  simp only [keccak256]
  rw [show keccakPad goldenPre = goldenPad from by decide]
  rw [show chunksAux 136 goldenPad.length goldenPad = [goldenB0, goldenB1] from by decide]
  simp only [List.foldl_cons, List.foldl_nil]
  rw [goldenAbsorb0, goldenF0, goldenAbsorb1, goldenF1]
  decide




/-- gRPC status codes used by the service. -/
inductive GrpcCode where
  | InvalidArgument
  | Internal
  | ResourceExhausted
deriving DecidableEq, Repr

/-- A `tonic::Status`: code plus message. -/
structure GrpcStatus where
  code : GrpcCode
  msg : String
deriving DecidableEq, Repr

/-- `storage::blob_status_db::BlobStatus`. -/
inductive BlobStatus where
  | UPLOADED
  | VERIFIED
deriving DecidableEq, Repr

/-- The opaque error detail of the external `zg_encoder::VerifierError`. -/
structure VerifierError where
  detail : String
deriving DecidableEq, Repr

/-- `VerificationError` from src/grpc/src/service.rs; the `Internal` variant
carries the `anyhow` message as a string. -/
inductive VerificationError where
  | Internal (msg : String)
  | SliceMismatch
  | IncorrectSlice (e : VerifierError)
deriving DecidableEq, Repr

/-- An external `zg_encoder::EncodedSlice`: an index plus the opaque proof
payload that only the external verifier interprets. -/
structure EncodedSlice where
  index : Nat
  payload : List Nat
deriving DecidableEq, Repr

/-- The wire-level `SignRequest` of the `signer` proto. -/
structure SignRequest where
  epoch : Nat
  quorum_id : Nat
  storage_root : List Nat
  erasure_commitment : List Nat
  encoded_slice : List (List Nat)
deriving DecidableEq, Repr

/-- Observable interactions with the external collaborators, recorded so
that claims about which state is touched can be stated. -/
inductive Effect where
  | chainQuorumLookup (epoch : Nat)
  | blobStatusRead (epoch quorum : Nat) (root : List Nat)
  | assignedSlicesRead (epoch quorum : Nat)
  | sliceWrite (epoch quorum : Nat) (root : List Nat)
deriving DecidableEq, Repr

/-- The external capabilities the service consumes (chain state, the two
storage stores, persistence, and the zg-encoder codec and verifier), plus the
rayon completion schedule for parallel slice verification. -/
structure Env where
  quorumCount : Nat → Except String Nat
  getBlobStatus : Nat → Nat → List Nat → Except String (Option BlobStatus)
  getAssignedSlices : Nat → Nat → Except String (Option (List Nat))
  putSlice : Nat → Nat → List Nat → List EncodedSlice → Except String Unit
  sliceDeser : List Nat → Except String EncodedSlice
  sliceVerify : EncodedSlice → G1ProjPoint → List Nat → Except VerifierError Unit
  schedule : Nat

/-- The errors of a list of per-slice results, in index order. -/
def errorsOf {ε : Type} (rs : List (Except ε Unit)) : List ε :=
  rs.filterMap fun r => match r with | .error e => some e | .ok _ => none

/-- Rayon collection of parallel per-item results into a single result
(`FromParallelIterator for Result`): workers short-circuit on the first
failure they see, but each failing worker overwrites one shared error slot,
so the surfaced error is that of whichever failing item completes last —
any failing item, selected here by the explicit `schedule` index; success
requires every item to succeed. -/
def rayonCollectUnit {ε : Type} (schedule : Nat) (rs : List (Except ε Unit)) : Except ε Unit :=
  match errorsOf rs with
  | [] => .ok ()
  | e :: rest => .error ((e :: rest).getD (schedule % (e :: rest).length) e)

/-- The per-position results of the rayon map inside
`verify_assigned_slices`: positional index equality, then the external
cryptographic verification of the slice. -/
def perSliceResults (env : Env) (storage_root : List Nat)
    (erasure_commitment : G1ProjPoint) (assigned_slices : List Nat)
    (encoded_slices : List EncodedSlice) : List (Except VerificationError Unit) :=
  (assigned_slices.zip encoded_slices).map fun pr =>
    if pr.1 ≠ pr.2.index then .error VerificationError.SliceMismatch
    else
      match env.sliceVerify pr.2 erasure_commitment storage_root with
      | .ok _ => .ok ()
      | .error e => .error (VerificationError.IncorrectSlice e)

/-- `SignerService::verify_assigned_slices`: length check, then per-position
index equality and external cryptographic verification, evaluated as a rayon
parallel iterator and collected. -/
def verify_assigned_slices (env : Env) (storage_root : List Nat)
    (erasure_commitment : G1ProjPoint) (assigned_slices : List Nat)
    (encoded_slices : List EncodedSlice) : Except VerificationError Unit :=
  if assigned_slices.length ≠ encoded_slices.length then .error .SliceMismatch
  else
    rayonCollectUnit env.schedule
      (perSliceResults env storage_root erasure_commitment assigned_slices encoded_slices)

/-- `SignerService::verify_encoded_slices`: fetch the quorum count, check the
quorum bound, fetch the assigned slices, and verify; paired with the log of
external interactions performed. -/
def verify_encoded_slices (env : Env) (epoch quorum_id : Nat) (storage_root : List Nat)
    (erasure_commitment : G1ProjPoint) (encoded_slices : List EncodedSlice) :
    Except VerificationError Unit × List Effect :=
  match env.quorumCount epoch with
  | .error e => (.error (.Internal e), [.chainQuorumLookup epoch])
  | .ok quorum_num =>
    if quorum_num ≤ quorum_id then
      (.error (.Internal "quorum_id out of bound"), [.chainQuorumLookup epoch])
    else
      match env.getAssignedSlices epoch quorum_id with
      | .error e =>
        (.error (.Internal e), [.chainQuorumLookup epoch, .assignedSlicesRead epoch quorum_id])
      | .ok (some assigned_slices) =>
        (verify_assigned_slices env storage_root erasure_commitment assigned_slices encoded_slices,
          [.chainQuorumLookup epoch, .assignedSlicesRead epoch quorum_id])
      | .ok none =>
        (.error (.Internal "quorum not found"),
          [.chainQuorumLookup epoch, .assignedSlicesRead epoch quorum_id])

/-- `SignerService::check_blob_status`: the blob-status gate. -/
def check_blob_status (env : Env) (epoch quorum_id : Nat) (storage_root : List Nat) :
    Except GrpcStatus Unit × List Effect :=
  (match env.getBlobStatus epoch quorum_id storage_root with
   | .error e => .error ⟨.Internal, e⟩
   | .ok (some .UPLOADED) => .ok ()
   | .ok (some .VERIFIED) => .error ⟨.Internal, "blob verified already"⟩
   | .ok none => .error ⟨.Internal, "blob not found"⟩,
   [.blobStatusRead epoch quorum_id storage_root])

/-- Deserialization of one `ark_bn254::Fq` field element from 32 little-endian
bytes, failing when the value is not below the modulus. -/
def fqFromLEBytes (bs : List Nat) : Option Nat :=
  if bytesLE bs < fqMod then some (bytesLE bs) else none

/-- `<(Fq, Fq)>::deserialize_uncompressed` from a byte slice: two 32-byte
field elements, trailing bytes ignored, short input fails. -/
def deserFqPair (bs : List Nat) : Option (Nat × Nat) :=
  if bs.length < 64 then none
  else
    match fqFromLEBytes (bs.take 32), fqFromLEBytes ((bs.drop 32).take 32) with
    | some x, some y => some (x, y)
    | _, _ => none

/-- `SignerService::decode_root`: the 32-byte storage root, then the
commitment as an affine coordinate pair checked on-curve and in-subgroup
(in that order, both surfaced as the same `InvalidArgument` error). -/
def decode_root (req : SignRequest) : Except GrpcStatus (List Nat × G1ProjPoint) :=
  if req.storage_root.length ≠ 32 then .error ⟨.InvalidArgument, "storage root"⟩
  else
    match deserFqPair req.erasure_commitment with
    | none => .error ⟨.InvalidArgument, "failed to deserialize erasure commitment"⟩
    | some (x, y) =>
      let maybe_commitment : G1AffinePoint := ⟨x, y, false⟩
      if !(is_on_curve maybe_commitment) ||
          !(is_in_correct_subgroup_assuming_on_curve maybe_commitment) then
        .error ⟨.InvalidArgument, "Incorrect commitment: commitment is not in group"⟩
      else .ok (req.storage_root, g1IntoGroup maybe_commitment)

/-- `SignerService::decode_encoded_slices`: each wire slice deserialized by
the external codec, first failure aborting with `InvalidArgument`. -/
def decode_encoded_slices (env : Env) : List (List Nat) → Except GrpcStatus (List EncodedSlice)
  | [] => .ok []
  | d :: rest =>
    match env.sliceDeser d with
    | .error e => .error ⟨.InvalidArgument, "failed to deserialize slice: " ++ e⟩
    | .ok s =>
      match decode_encoded_slices env rest with
      | .error st => .error st
      | .ok ss => .ok (s :: ss)

/-- The mapping from `VerificationError` to the reply status performed inside
the batch loop of `batch_sign_inner`. -/
def verification_error_to_status : VerificationError → GrpcStatus
  | .Internal e => ⟨.Internal, "internal error on verification: " ++ e⟩
  | .SliceMismatch => ⟨.InvalidArgument, "received slices and assigned slices are mismatch"⟩
  | .IncorrectSlice e => ⟨.InvalidArgument, "verification failed: " ++ e.detail⟩

/-- Affine group law of BN254 G1 (used only through `g1MulAffine`; the
claims relate the pipeline to this same function, so only determinism and
agreement with the curve law on curve points matter). -/
def g1AddAffine (p q : G1AffinePoint) : G1AffinePoint :=
  if p.infinity then q
  else if q.infinity then p
  else
    let px := p.x % fqMod
    let py := p.y % fqMod
    let qx := q.x % fqMod
    let qy := q.y % fqMod
    if px == qx then
      if (py + qy) % fqMod == 0 then g1Infinity
      else
        let lam := 3 * (px * px % fqMod) % fqMod * fqInv (2 * py % fqMod) % fqMod
        let xr := (lam * lam + 2 * (fqMod - px)) % fqMod
        let yr := (lam * (px + (fqMod - xr)) % fqMod + (fqMod - py)) % fqMod
        ⟨xr, yr, false⟩
    else
      let lam := (qy + (fqMod - py)) % fqMod * fqInv ((qx + (fqMod - px)) % fqMod) % fqMod
      let xr := (lam * lam + (fqMod - px) + (fqMod - qx)) % fqMod
      let yr := (lam * (px + (fqMod - xr)) % fqMod + (fqMod - py)) % fqMod
      ⟨xr, yr, false⟩

/-- Double-and-add scalar multiplication with explicit fuel. -/
def g1MulAux : Nat → G1AffinePoint → Nat → G1AffinePoint
  | 0, _, _ => g1Infinity
  | Nat.succ fuel, p, k =>
    if k == 0 then g1Infinity
    else
      let r := g1MulAux fuel (g1AddAffine p p) (k / 2)
      if k % 2 == 1 then g1AddAffine r p else r

/-- `(hash * signer_private_key).into_affine()`: scalar multiplication of an
affine G1 point by a scalar below 2 ^ 256. -/
def g1MulAffine (p : G1AffinePoint) (k : Nat) : G1AffinePoint := g1MulAux 256 p k

/-- A field element as 32 little-endian bytes. -/
def nat32LE (v : Nat) : List Nat := (List.range 32).map fun i => (v >>> (8 * i)) &&& 255

/-- `G1Affine::serialize_uncompressed` (arkworks): x then y as 32 little-endian
bytes each; the point at infinity serializes as zeros with the infinity flag
bit 0x40 in the final byte. -/
def serialize_uncompressed (p : G1AffinePoint) : List Nat :=
  if p.infinity then nat32LE 0 ++ (nat32LE 0).take 31 ++ [64]
  else nat32LE p.x ++ nat32LE p.y

/-- The body of the per-request loop of `SignerService::batch_sign_inner`:
decode root and commitment, gate on blob status, decode slices, verify,
sign, persist; returns the signature bytes pushed to the reply or the
status aborting the batch, with the log of external interactions. -/
def processRequest (env : Env) (sk : Nat) (req : SignRequest) :
    Except GrpcStatus (List Nat) × List Effect :=
  match decode_root req with
  | .error s => (.error s, [])
  | .ok (storage_root, erasure_commitment) =>
    match check_blob_status env req.epoch req.quorum_id storage_root with
    | (.error s, eff1) => (.error s, eff1)
    | (.ok _, eff1) =>
      match decode_encoded_slices env req.encoded_slice with
      | .error s => (.error s, eff1)
      | .ok encoded_slices =>
        match verify_encoded_slices env req.epoch req.quorum_id storage_root
            erasure_commitment encoded_slices with
        | (.error e, eff2) => (.error (verification_error_to_status e), eff1 ++ eff2)
        | (.ok _, eff2) =>
          let hash := blob_verified_hash storage_root req.epoch req.quorum_id erasure_commitment
          let signature := g1MulAffine hash sk
          let value := serialize_uncompressed signature
          match env.putSlice req.epoch req.quorum_id storage_root encoded_slices with
          | .error e =>
            (.error ⟨.Internal, "pub slice error: " ++ e⟩,
              eff1 ++ eff2 ++ [.sliceWrite req.epoch req.quorum_id storage_root])
          | .ok _ =>
            (.ok value, eff1 ++ eff2 ++ [.sliceWrite req.epoch req.quorum_id storage_root])

/-- `SignerService::batch_sign_inner`: the batch loop, aborting at the first
failing request, otherwise accumulating one signature per request in
submission order. -/
def batch_sign_inner (env : Env) (sk : Nat) :
    List SignRequest → Except GrpcStatus (List (List Nat)) × List Effect
  | [] => (.ok [], [])
  | req :: rest =>
    match processRequest env sk req with
    | (.error s, eff) => (.error s, eff)
    | (.ok value, eff) =>
      match batch_sign_inner env sk rest with
      | (.error s, eff2) => (.error s, eff ++ eff2)
      | (.ok sigs, eff2) => (.ok (value :: sigs), eff ++ eff2)

/-- `SignerService::on_incoming_batch_sign`: refuse when the counter is above
the configured maximum, otherwise increment. -/
def on_incoming_batch_sign (maxOngoing cnt : Int) : Except GrpcStatus Int :=
  if cnt > maxOngoing then .error ⟨.ResourceExhausted, "request pool is full"⟩
  else .ok (cnt + 1)

/-- `SignerService::on_complete_batch_sign`: unconditional decrement. -/
def on_complete_batch_sign (cnt : Int) : Int := cnt - 1

/-- `DEFAULT_MAX_ONGOING_SIGN_REQUEST` from src/grpc/src/service.rs. -/
def DEFAULT_MAX_ONGOING_SIGN_REQUEST : Int := 10

/-- `Signer::batch_sign`: admission, the inner pipeline, then the completion
decrement; returns the reply, the final counter value, and the effect log. -/
def batch_sign (env : Env) (sk : Nat) (maxOngoing cnt : Int) (requests : List SignRequest) :
    Except GrpcStatus (List (List Nat)) × Int × List Effect :=
  match on_incoming_batch_sign maxOngoing cnt with
  | .error s => (.error s, cnt, [])
  | .ok cnt1 =>
    match batch_sign_inner env sk requests with
    | (reply, eff) => (reply, on_complete_batch_sign cnt1, eff)

/-- One admission-counter event: an `enter` attempt or an `exit`. -/
inductive AdmEvent where
  | enter
  | exitEv
deriving DecidableEq, Repr

/-- Run of the admission counter along an event trace: `enter` goes through
`on_incoming_batch_sign` (a refused enter leaves the counter unchanged);
`exitEv` requires an outstanding permit (as in the program every exit follows
a matching successful enter) and goes through `on_complete_batch_sign`. -/
def admRunAux (maxOngoing : Int) (cnt : Int) : List AdmEvent → Option Int
  | [] => some cnt
  | AdmEvent.enter :: rest =>
    match on_incoming_batch_sign maxOngoing cnt with
    | .ok cnt1 => admRunAux maxOngoing cnt1 rest
    | .error _ => admRunAux maxOngoing cnt rest
  | AdmEvent.exitEv :: rest =>
    if cnt ≤ 0 then none else admRunAux maxOngoing (on_complete_batch_sign cnt) rest

/-- Admission-counter run from the initial counter zero. -/
def admRun (maxOngoing : Int) (t : List AdmEvent) : Option Int := admRunAux maxOngoing 0 t

/-- The signature the spec predicts for one request: the hash-to-curve point
of the decoded root, epoch, quorum and commitment, multiplied by the signer
secret and serialized uncompressed; `none` when the request does not decode. -/
def expectedSignature (sk : Nat) (req : SignRequest) : Option (List Nat) :=
  match decode_root req with
  | .ok (storage_root, erasure_commitment) =>
    some (serialize_uncompressed
      (g1MulAffine (blob_verified_hash storage_root req.epoch req.quorum_id erasure_commitment) sk))
  | .error _ => none

/-- Decidable equality for `Except` results, used to settle concrete runs. -/
instance {m : Type} {a : Type} [DecidableEq m] [DecidableEq a] : DecidableEq (Except m a) :=
  fun x y =>
    match x, y with
    | .ok v, .ok w =>
      if h : v = w then isTrue (by rw [h]) else isFalse (by intro hh; cases hh; exact h rfl)
    | .error v, .error w =>
      if h : v = w then isTrue (by rw [h]) else isFalse (by intro hh; cases hh; exact h rfl)
    | .ok _, .error _ => isFalse (by intro hh; cases hh)
    | .error _, .ok _ => isFalse (by intro hh; cases hh)

/-- A concrete environment for witnesses: everything is present and valid,
the codec rejects every wire slice (no wire slices are used with it). -/
def envEx : Env where
  quorumCount := fun _ => .ok 1
  getBlobStatus := fun _ _ _ => .ok (some .UPLOADED)
  getAssignedSlices := fun _ _ => .ok (some [])
  putSlice := fun _ _ _ _ => .ok ()
  sliceDeser := fun _ => .error "unsupported"
  sliceVerify := fun _ _ _ => .ok ()
  schedule := 0

/-- C3 counterexample trace: eleven admission attempts. -/
def elevenEnters : List AdmEvent := List.replicate 11 AdmEvent.enter

/-- C3 is stated against the code: `on_incoming_batch_sign` refuses only when
the counter is strictly above the maximum, so with the default maximum 10 the
counter can reach 11. -/
theorem C3_counterexample :
    admRun DEFAULT_MAX_ONGOING_SIGN_REQUEST elevenEnters = some 11 ∧
    ¬ (11 : Int) ≤ DEFAULT_MAX_ONGOING_SIGN_REQUEST := by
  constructor
  · decide
  · decide

/-- Bounds of the admission counter along any well-formed trace, generalized
over the starting counter. -/
theorem admRunAux_bounds (maxOngoing : Int) :
    ∀ (t : List AdmEvent) (c0 : Int), 0 ≤ c0 → c0 ≤ maxOngoing + 1 →
      ∀ c, admRunAux maxOngoing c0 t = some c → 0 ≤ c ∧ c ≤ maxOngoing + 1 := by
  intro t
  induction t with
  | nil =>
    intro c0 h0 h1 c hc
    simp [admRunAux] at hc
    omega
  | cons ev rest ih =>
    intro c0 h0 h1 c hc
    cases ev with
    | enter =>
      by_cases hgt : c0 > maxOngoing
      · simp [admRunAux, on_incoming_batch_sign, hgt] at hc
        exact ih c0 h0 h1 c hc
      · simp [admRunAux, on_incoming_batch_sign, hgt] at hc
        exact ih (c0 + 1) (by omega) (by omega) c hc
    | exitEv =>
      by_cases hle : c0 ≤ 0
      · simp [admRunAux, hle] at hc
      · simp [admRunAux, on_complete_batch_sign, hle] at hc
        exact ih (c0 - 1) (by omega) (by omega) c hc

/-- C3 (amended): under the admission protocol, for every sequence of
enter and exit steps starting from zero in which each exit is preceded by a
matching successful enter, the counter never goes negative and never exceeds
the configured maximum plus one (it reaches the maximum plus one because
enter refuses only when the counter is strictly above the maximum). -/
theorem C3_amended_counter_bounds (maxOngoing : Int) (t : List AdmEvent) (c : Int)
    (hmax : 0 ≤ maxOngoing) (h : admRun maxOngoing t = some c) :
    0 ≤ c ∧ c ≤ maxOngoing + 1 :=
  admRunAux_bounds maxOngoing t 0 (by omega) (by omega) c h

/-- Witness for the amended C3 invariant at a concrete trace: eleven
admitted enters followed by eleven exits return the counter to zero. -/
theorem C3_amended_counter_bounds_witness : 0 ≤ (0 : Int) ∧ (0 : Int) ≤ 10 + 1 :=
  C3_amended_counter_bounds 10
    (List.replicate 11 AdmEvent.enter ++ List.replicate 11 AdmEvent.exitEv) 0
    (by decide) (by decide)

/-- C9: the admission permit is always balanced: `batch_sign` returns the
counter to its prior value on every path, a refused admission returns the
ResourceExhausted status and touches nothing, and an admitted call surfaces
exactly the inner pipeline's reply. -/
theorem C9_permit_always_released (env : Env) (sk : Nat) (maxOngoing cnt : Int)
    (requests : List SignRequest) :
    (batch_sign env sk maxOngoing cnt requests).2.1 = cnt ∧
    (batch_sign env sk maxOngoing cnt requests).1 =
      (if cnt > maxOngoing then Except.error ⟨.ResourceExhausted, "request pool is full"⟩
       else (batch_sign_inner env sk requests).1) := by
  rcases hbi : batch_sign_inner env sk requests with ⟨r, eff⟩
  by_cases h : cnt > maxOngoing
  · simp [batch_sign, on_incoming_batch_sign, h]
  · simp [batch_sign, on_incoming_batch_sign, on_complete_batch_sign, h, hbi]

/-- C10: an admitted call on an empty batch succeeds with an empty signature
list, leaves the counter at its prior value, and performs no external
interaction at all. -/
theorem C10_empty_batch (env : Env) (sk : Nat) (maxOngoing cnt : Int)
    (h : ¬ cnt > maxOngoing) :
    batch_sign env sk maxOngoing cnt [] = (.ok [], cnt, []) := by
  simp [batch_sign, on_incoming_batch_sign, on_complete_batch_sign, batch_sign_inner, h]

/-- Witness for C10 at the default limit and counter zero. -/
theorem C10_empty_batch_witness :
    batch_sign envEx 1 DEFAULT_MAX_ONGOING_SIGN_REQUEST 0 [] = (.ok [], 0, []) :=
  C10_empty_batch envEx 1 DEFAULT_MAX_ONGOING_SIGN_REQUEST 0 (by decide)

/-- Membership in the collected error list is membership of the
corresponding failing result. -/
theorem mem_errorsOf {ε : Type} (rs : List (Except ε Unit)) (e : ε) :
    e ∈ errorsOf rs ↔ Except.error e ∈ rs := by
  simp only [errorsOf, List.mem_filterMap]
  constructor
  · rintro ⟨r, hr, hfe⟩
    cases r with
    | ok u => simp at hfe
    | error e2 =>
      simp only [Option.some.injEq] at hfe
      exact hfe ▸ hr
  · intro h
    exact ⟨Except.error e, h, rfl⟩

/-- `List.getD` yields a list element or the default. -/
theorem getD_mem_or {α : Type} : ∀ (l : List α) (i : Nat) (d : α),
    l.getD i d ∈ l ∨ l.getD i d = d := by
  intro l
  induction l with
  | nil => intro i d; right; cases i <;> rfl
  | cons a l ih =>
    intro i d
    cases i with
    | zero => left; rw [List.getD_cons_zero]; exact List.mem_cons_self a l
    | succ i =>
      rw [List.getD_cons_succ]
      rcases ih i d with h | h
      · left; exact List.mem_cons_of_mem a h
      · right; exact h

/-- The rayon collect succeeds exactly when no per-item result failed. -/
theorem rayonCollectUnit_ok_iff {ε : Type} (schedule : Nat) (rs : List (Except ε Unit)) :
    rayonCollectUnit schedule rs = .ok () ↔ errorsOf rs = [] := by
  unfold rayonCollectUnit
  rcases herr : errorsOf rs with _ | ⟨e, rest⟩ <;> simp

/-- Every error surfaced by the rayon collect is the error of some failing
item. -/
theorem rayonCollectUnit_error_mem {ε : Type} (schedule : Nat) (rs : List (Except ε Unit))
    (e : ε) (h : rayonCollectUnit schedule rs = .error e) : e ∈ errorsOf rs := by
  unfold rayonCollectUnit at h
  rcases herr : errorsOf rs with _ | ⟨e0, rest⟩
  · rw [herr] at h; simp at h
  · rw [herr] at h
    simp only [Except.error.injEq] at h
    subst h
    rcases getD_mem_or (e0 :: rest) (schedule % (e0 :: rest).length) e0 with hm | hm
    · exact hm
    · rw [hm]; exact List.mem_cons_self e0 rest

/-- When every failing item carries the same error value the rayon collect is
schedule-independent. -/
theorem rayonCollectUnit_const {ε : Type} (schedule : Nat) (rs : List (Except ε Unit)) (e0 : ε)
    (hne : errorsOf rs ≠ []) (hall : ∀ e ∈ errorsOf rs, e = e0) :
    rayonCollectUnit schedule rs = .error e0 := by
  unfold rayonCollectUnit
  rcases herr : errorsOf rs with _ | ⟨e, rest⟩
  · exact absurd herr hne
  · simp only [Except.error.injEq]
    rcases getD_mem_or (e :: rest) (schedule % (e :: rest).length) e with hm | hm
    · exact hall _ (herr ▸ hm)
    · rw [hm]; exact hall e (herr ▸ List.mem_cons_self e rest)

/-- Positional access of a zip in terms of its two components. -/
theorem zip_getElem?_iff {α β : Type} :
    ∀ (l1 : List α) (l2 : List β) (i : Nat) (a : α) (b : β),
      (l1.zip l2)[i]? = some (a, b) ↔ (l1[i]? = some a ∧ l2[i]? = some b) := by
  intro l1
  induction l1 with
  | nil => intro l2 i a b; simp
  | cons x l1 ih =>
    intro l2 i a b
    cases l2 with
    | nil => simp
    | cons y l2 =>
      cases i with
      | zero => simp [List.zip_cons_cons]
      | succ i => simpa [List.zip_cons_cons] using ih l2 i a b

/-- The per-position verification result at a position of the zip. -/
theorem perSliceResults_getElem? (env : Env) (root : List Nat) (c : G1ProjPoint)
    (assigned : List Nat) (slices : List EncodedSlice) (i : Nat) (a : Nat) (s : EncodedSlice)
    (ha : assigned[i]? = some a) (hs : slices[i]? = some s) :
    (perSliceResults env root c assigned slices)[i]? = some
      (if a ≠ s.index then .error VerificationError.SliceMismatch
       else match env.sliceVerify s c root with
            | .ok _ => .ok ()
            | .error e => .error (VerificationError.IncorrectSlice e)) := by
  unfold perSliceResults
  rw [List.getElem?_map, (zip_getElem?_iff assigned slices i a s).2 ⟨ha, hs⟩]
  rfl

/-- Every per-position result arises from a position of the two lists. -/
theorem perSliceResults_mem (env : Env) (root : List Nat) (c : G1ProjPoint)
    (assigned : List Nat) (slices : List EncodedSlice) (r : Except VerificationError Unit)
    (hr : r ∈ perSliceResults env root c assigned slices) :
    ∃ i : Nat, ∃ a s, assigned[i]? = some a ∧ slices[i]? = some s ∧
      r = (if a ≠ s.index then .error VerificationError.SliceMismatch
           else match env.sliceVerify s c root with
                | .ok _ => .ok ()
                | .error e => .error (VerificationError.IncorrectSlice e)) := by
  unfold perSliceResults at hr
  rcases List.mem_map.1 hr with ⟨pr, hpr, hf⟩
  rcases List.mem_iff_getElem?.1 hpr with ⟨i, hi⟩
  rcases pr with ⟨a, s⟩
  rcases (zip_getElem?_iff assigned slices i a s).1 hi with ⟨ha, hs⟩
  exact ⟨i, a, s, ha, hs, hf.symm⟩

/-- Environment for the C4 counterexample: the external verifier rejects the
slice of index 2, and the parallel completion schedule surfaces the first
failing position. -/
def envC4 : Env :=
  { envEx with
      sliceVerify := fun s _ _ => if s.index == 2 then .error ⟨"bad proof"⟩ else .ok ()
      schedule := 0 }

/-- C4 as stated is refuted: position 1 has a positional index mismatch
(3 assigned, 9 supplied), yet the surfaced error is the cryptographic
failure of position 0 rather than `SliceMismatch`, because rayon's collect
surfaces whichever failing task completes last. -/
theorem C4_counterexample :
    ([2, 3] : List Nat)[1]? = some 3 ∧
    ([⟨2, []⟩, ⟨9, []⟩] : List EncodedSlice)[1]? = some ⟨9, []⟩ ∧
    (3 : Nat) ≠ 9 ∧
    verify_assigned_slices envC4 [] ⟨1, 2, 1⟩ [2, 3] [⟨2, []⟩, ⟨9, []⟩] =
      .error (.IncorrectSlice ⟨"bad proof"⟩) ∧
    verify_assigned_slices envC4 [] ⟨1, 2, 1⟩ [2, 3] [⟨2, []⟩, ⟨9, []⟩] ≠
      .error VerificationError.SliceMismatch := by
  refine ⟨rfl, rfl, by decide, by decide, by decide⟩

/-- C4 (amended): the slice-to-assignment correspondence is strictly
positional: a length mismatch is rejected with `SliceMismatch`; a positional
index mismatch makes verification fail, and the surfaced error is
`SliceMismatch` whenever every index-matching slice passes the external
verification (in particular for assigned [3,7,9] against supplied [3,9,7]);
when another slice concurrently fails its cryptographic check the schedule
may surface that failure instead. -/
theorem C4_positional_mismatch (env : Env) (root : List Nat) (c : G1ProjPoint)
    (assigned : List Nat) (slices : List EncodedSlice) :
    (assigned.length ≠ slices.length →
      verify_assigned_slices env root c assigned slices = .error .SliceMismatch) ∧
    ((∃ i : Nat, ∃ a s, assigned[i]? = some a ∧ slices[i]? = some s ∧ a ≠ s.index) →
      ∃ e, verify_assigned_slices env root c assigned slices = .error e) ∧
    ((∀ i : Nat, ∀ a s, assigned[i]? = some a → slices[i]? = some s → a = s.index →
        env.sliceVerify s c root = .ok ()) →
      (∃ i : Nat, ∃ a s, assigned[i]? = some a ∧ slices[i]? = some s ∧ a ≠ s.index) →
      verify_assigned_slices env root c assigned slices = .error .SliceMismatch) := by
  refine ⟨?_, ?_, ?_⟩
  · intro hlen
    unfold verify_assigned_slices
    rw [if_pos hlen]
  · rintro ⟨i, a, s, ha, hs, hne⟩
    by_cases hlen : assigned.length ≠ slices.length
    · refine ⟨.SliceMismatch, ?_⟩
      unfold verify_assigned_slices
      rw [if_pos hlen]
    · have hpi := perSliceResults_getElem? env root c assigned slices i a s ha hs
      rw [if_pos hne] at hpi
      have hmem : VerificationError.SliceMismatch ∈
          errorsOf (perSliceResults env root c assigned slices) :=
        (mem_errorsOf _ _).2 (List.mem_iff_getElem?.2 ⟨i, hpi⟩)
      unfold verify_assigned_slices
      rw [if_neg hlen]
      unfold rayonCollectUnit
      rcases herr : errorsOf (perSliceResults env root c assigned slices) with _ | ⟨e0, rest⟩
      · rw [herr] at hmem; simp at hmem
      · exact ⟨_, rfl⟩
  · intro hok
    rintro ⟨i, a, s, ha, hs, hne⟩
    have hall : ∀ e ∈ errorsOf (perSliceResults env root c assigned slices),
        e = VerificationError.SliceMismatch := by
      intro e he
      rcases perSliceResults_mem env root c assigned slices _ ((mem_errorsOf _ _).1 he) with
        ⟨j, a2, s2, ha2, hs2, heq⟩
      by_cases hm : a2 ≠ s2.index
      · rw [if_pos hm] at heq
        exact (Except.error.inj heq)
      · push_neg at hm
        rw [if_neg (by simp [hm])] at heq
        rw [hok j a2 s2 ha2 hs2 hm] at heq
        simp at heq
    have hpi := perSliceResults_getElem? env root c assigned slices i a s ha hs
    rw [if_pos hne] at hpi
    have hmem : VerificationError.SliceMismatch ∈
        errorsOf (perSliceResults env root c assigned slices) :=
      (mem_errorsOf _ _).2 (List.mem_iff_getElem?.2 ⟨i, hpi⟩)
    by_cases hlen : assigned.length ≠ slices.length
    · unfold verify_assigned_slices
      rw [if_pos hlen]
    · unfold verify_assigned_slices
      rw [if_neg hlen]
      exact rayonCollectUnit_const env.schedule _ _ (List.ne_nil_of_mem hmem) hall

/-- Witness for the amended C4 at the concrete example of the spec: assigned
[3,7,9] against supplied indices [3,9,7] with an accepting verifier. -/
theorem C4_positional_mismatch_witness :
    verify_assigned_slices envEx [] ⟨1, 2, 1⟩ [3, 7, 9] [⟨3, []⟩, ⟨9, []⟩, ⟨7, []⟩] =
      .error VerificationError.SliceMismatch :=
  (C4_positional_mismatch envEx [] ⟨1, 2, 1⟩ [3, 7, 9] [⟨3, []⟩, ⟨9, []⟩, ⟨7, []⟩]).2.2
    (fun _ _ _ _ _ _ => rfl)
    ⟨1, 7, ⟨9, []⟩, rfl, rfl, by decide⟩

/-- Environment for the C6 counterexample: the external verifier rejects the
slice of index 5; schedules 0 and 1 model the two possible orders in which
the two failing parallel tasks write the shared error slot. -/
def envC6a : Env :=
  { envEx with
      sliceVerify := fun s _ _ => if s.index == 5 then .error ⟨"bad5"⟩ else .ok ()
      schedule := 0 }

/-- The same environment under the other completion schedule. -/
def envC6b : Env := { envC6a with schedule := 1 }

/-- C6 as stated is refuted: with two failing positions (index order gives
the cryptographic failure of position 0 first), the two completion schedules
surface different errors on identical inputs, and one of them is not the
lowest-index failure. -/
theorem C6_counterexample :
    errorsOf (perSliceResults envC6a [] ⟨1, 2, 1⟩ [5, 7] [⟨5, []⟩, ⟨8, []⟩]) =
      [.IncorrectSlice ⟨"bad5"⟩, .SliceMismatch] ∧
    verify_assigned_slices envC6a [] ⟨1, 2, 1⟩ [5, 7] [⟨5, []⟩, ⟨8, []⟩] =
      .error (.IncorrectSlice ⟨"bad5"⟩) ∧
    verify_assigned_slices envC6b [] ⟨1, 2, 1⟩ [5, 7] [⟨5, []⟩, ⟨8, []⟩] =
      .error VerificationError.SliceMismatch ∧
    verify_assigned_slices envC6a [] ⟨1, 2, 1⟩ [5, 7] [⟨5, []⟩, ⟨8, []⟩] ≠
      verify_assigned_slices envC6b [] ⟨1, 2, 1⟩ [5, 7] [⟨5, []⟩, ⟨8, []⟩] := by
  refine ⟨by decide, by decide, by decide, by decide⟩

/-- C6 (amended): the error surfaced by `verify_assigned_slices` always is a
length mismatch or the error of one of the failing positions, but which
failing position is surfaced depends on the completion schedule; only when
all failing positions carry equal error values is the surfaced error
schedule-independent. -/
theorem C6_error_schedule (env : Env) (root : List Nat) (c : G1ProjPoint)
    (assigned : List Nat) (slices : List EncodedSlice) :
    (∀ e, verify_assigned_slices env root c assigned slices = .error e →
      (assigned.length ≠ slices.length ∧ e = .SliceMismatch) ∨
        e ∈ errorsOf (perSliceResults env root c assigned slices)) ∧
    (∀ e0 : VerificationError,
      errorsOf (perSliceResults env root c assigned slices) ≠ [] →
      (∀ e ∈ errorsOf (perSliceResults env root c assigned slices), e = e0) →
      ∀ sch : Nat,
        verify_assigned_slices { env with schedule := sch } root c assigned slices =
          .error e0 ∨ (assigned.length ≠ slices.length ∧
            verify_assigned_slices { env with schedule := sch } root c assigned slices =
              .error VerificationError.SliceMismatch)) := by
  constructor
  · intro e he
    unfold verify_assigned_slices at he
    by_cases hlen : assigned.length ≠ slices.length
    · rw [if_pos hlen] at he
      exact Or.inl ⟨hlen, (Except.error.inj he).symm⟩
    · rw [if_neg hlen] at he
      exact Or.inr (rayonCollectUnit_error_mem env.schedule _ e he)
  · intro e0 hne hall sch
    by_cases hlen : assigned.length ≠ slices.length
    · refine Or.inr ⟨hlen, ?_⟩
      unfold verify_assigned_slices
      rw [if_pos hlen]
    · refine Or.inl ?_
      unfold verify_assigned_slices
      rw [if_neg hlen]
      exact rayonCollectUnit_const sch _ _ hne hall

/-- Witness for the amended C6: with every position mismatching, every
failing position carries `SliceMismatch` and any schedule surfaces it. -/
theorem C6_error_schedule_witness :
    verify_assigned_slices { envC6a with schedule := 3 } [] ⟨1, 2, 1⟩ [5, 8]
        [⟨1, []⟩, ⟨2, []⟩] = .error VerificationError.SliceMismatch ∨
      (([5, 8] : List Nat).length ≠ ([⟨1, []⟩, ⟨2, []⟩] : List EncodedSlice).length ∧
        verify_assigned_slices { envC6a with schedule := 3 } [] ⟨1, 2, 1⟩ [5, 8]
          [⟨1, []⟩, ⟨2, []⟩] = .error VerificationError.SliceMismatch) :=
  (C6_error_schedule envC6a [] ⟨1, 2, 1⟩ [5, 8] [⟨1, []⟩, ⟨2, []⟩]).2
    VerificationError.SliceMismatch (by decide) (by decide) 3

/-- C2: `blob_verified_hash` is a pure function of its four arguments: it
Keccak-256-hashes exactly the packed concatenation of the root, the epoch and
quorum id as 32-byte big-endian words, and the two commitment coordinates,
with no length prefixes (a 32-byte root gives a 160-byte preimage), maps the
digest onto the curve, and reproduces the previously published regression
point at the golden inputs root = 32 bytes 0x11, epoch 1, quorum 2,
commitment (1, 2, 1). -/
theorem C2_blob_verified_hash_golden :
    (∀ (root : List Nat) (epoch quorum_id : Nat) (c : G1ProjPoint),
      blob_verified_hash root epoch quorum_id c =
        map_to_g1 (keccak256 (root ++ u256_to_u8_array epoch ++ u256_to_u8_array quorum_id ++
          u256_to_u8_array (g1IntoAffine c).x ++ u256_to_u8_array (g1IntoAffine c).y))) ∧
    (∀ (root : List Nat) (epoch quorum_id : Nat) (c : G1ProjPoint),
      (blobVerifiedPreimage root epoch quorum_id c).length = root.length + 128) ∧
    blob_verified_hash (List.replicate 32 17) 1 2 ⟨1, 2, 1⟩ =
      ⟨3104132272622526655068902279970515367044771064982988265068273751564440697689,
       14983672482514514723382346054400511740670770934276906876175822994665721348371,
       false⟩ := by
  refine ⟨fun root epoch quorum_id c => rfl, fun root epoch quorum_id c => ?_, ?_⟩
  · simp [blobVerifiedPreimage, u256_to_u8_array]
  · have hpre : blobVerifiedPreimage (List.replicate 32 17) 1 2 ⟨1, 2, 1⟩ = goldenPre := by
      decide
    simp only [blob_verified_hash, hpre, golden_keccak]
    decide

/-- A request whose commitment bytes encode the pair (1, 1), which is not on
the curve. -/
def reqBadCurveC5 : SignRequest :=
  ⟨0, 0, List.replicate 32 0, [1] ++ List.replicate 31 0 ++ [1] ++ List.replicate 31 0, []⟩

/-- C5: commitment decoding fails with `InvalidArgument` exactly when the
field-element pair fails to deserialize, the point is off the curve, or the
point is on the curve but outside the prime-order subgroup (vacuous for this
cofactor-one curve); deserialization is checked before the group checks and
carries a distinct message of the same kind, every failure carries
`InvalidArgument`, and a successful decode returns an on-curve, in-subgroup
commitment. -/
theorem C5_decode_commitment (req : SignRequest) (hroot : req.storage_root.length = 32) :
    ((∃ s, decode_root req = .error s) ↔
      (deserFqPair req.erasure_commitment = none ∨
        ∃ x y, deserFqPair req.erasure_commitment = some (x, y) ∧
          (is_on_curve ⟨x, y, false⟩ = false ∨
            (is_on_curve ⟨x, y, false⟩ = true ∧
              is_in_correct_subgroup_assuming_on_curve ⟨x, y, false⟩ = false)))) ∧
    (deserFqPair req.erasure_commitment = none →
      decode_root req =
        .error ⟨.InvalidArgument, "failed to deserialize erasure commitment"⟩) ∧
    (∀ x y, deserFqPair req.erasure_commitment = some (x, y) →
      is_on_curve ⟨x, y, false⟩ = false →
      decode_root req =
        .error ⟨.InvalidArgument, "Incorrect commitment: commitment is not in group"⟩) ∧
    (∀ s, decode_root req = .error s → s.code = .InvalidArgument) ∧
    (∀ root c, decode_root req = .ok (root, c) →
      ∃ mc : G1AffinePoint, c = g1IntoGroup mc ∧ is_on_curve mc = true ∧
        is_in_correct_subgroup_assuming_on_curve mc = true) := by
  have hr32 : ¬ req.storage_root.length ≠ 32 := by omega
  rcases hdeser : deserFqPair req.erasure_commitment with _ | ⟨x, y⟩
  · have hdr : decode_root req =
        .error ⟨.InvalidArgument, "failed to deserialize erasure commitment"⟩ := by
      unfold decode_root
      rw [if_neg hr32, hdeser]
    refine ⟨⟨fun _ => Or.inl rfl, fun _ => ⟨_, hdr⟩⟩, fun _ => hdr, ?_, ?_, ?_⟩
    · intro x y hxy
      exact absurd hxy (by simp)
    · intro s hs
      rw [hdr] at hs
      injection hs with h2
      rw [← h2]
    · intro root c hc
      rw [hdr] at hc
      exact Except.noConfusion hc
  · by_cases honc : is_on_curve ⟨x, y, false⟩ = true
    · have hdr : decode_root req = .ok (req.storage_root, g1IntoGroup ⟨x, y, false⟩) := by
        unfold decode_root
        rw [if_neg hr32, hdeser]
        simp [honc, is_in_correct_subgroup_assuming_on_curve]
      refine ⟨?_, ?_, ?_, ?_, ?_⟩
      · constructor
        · rintro ⟨s, hs⟩
          rw [hdr] at hs
          exact Except.noConfusion hs
        · rintro (h | ⟨x2, y2, hxy, h⟩)
          · exact absurd h (by simp)
          · injection hxy with hp
            injection hp with hx2 hy2
            subst hx2
            subst hy2
            rcases h with h | ⟨_, h⟩
            · rw [honc] at h
              exact Bool.noConfusion h
            · exact absurd h (by simp [is_in_correct_subgroup_assuming_on_curve])
      · intro h
        exact absurd h (by simp)
      · intro x2 y2 hxy h
        injection hxy with hp
        injection hp with hx2 hy2
        subst hx2
        subst hy2
        rw [honc] at h
        exact Bool.noConfusion h
      · intro s hs
        rw [hdr] at hs
        exact Except.noConfusion hs
      · intro root c hc
        rw [hdr] at hc
        injection hc with h2
        injection h2 with hr2 hc2
        exact ⟨⟨x, y, false⟩, hc2.symm, honc, rfl⟩
    · have honcf : is_on_curve ⟨x, y, false⟩ = false := by
        cases h2 : is_on_curve ⟨x, y, false⟩
        · rfl
        · exact absurd h2 honc
      have hdr : decode_root req =
          .error ⟨.InvalidArgument, "Incorrect commitment: commitment is not in group"⟩ := by
        unfold decode_root
        rw [if_neg hr32, hdeser]
        simp [honcf]
      refine ⟨?_, ?_, ?_, ?_, ?_⟩
      · exact ⟨fun _ => Or.inr ⟨x, y, rfl, Or.inl honcf⟩, fun _ => ⟨_, hdr⟩⟩
      · intro h
        exact absurd h (by simp)
      · intro x2 y2 hxy h
        exact hdr
      · intro s hs
        rw [hdr] at hs
        injection hs with h2
        rw [← h2]
      · intro root c hc
        rw [hdr] at hc
        exact Except.noConfusion hc

/-- Witness for C5 at a concrete off-curve commitment encoding. -/
theorem C5_decode_commitment_witness :
    decode_root reqBadCurveC5 =
      .error ⟨.InvalidArgument, "Incorrect commitment: commitment is not in group"⟩ :=
  (C5_decode_commitment reqBadCurveC5 (by decide)).2.2.1 1 1 (by decide) (by decide)

/-- Environment for C7: five quorums in the epoch, and an assignment record
present for every quorum id. -/
def envC7 : Env :=
  { envEx with
      quorumCount := fun _ => .ok 5
      getAssignedSlices := fun _ _ => .ok (some [1, 2, 3]) }

/-- C7 as stated is refuted in its classification: with quorum_id equal to
the quorum count and an assignment record present, verification fails with
the bound error, but that error is the `Internal` variant mapped to gRPC
`Internal`, not the `SliceMismatch` (assignment-mismatch) class, which maps
to `InvalidArgument`. -/
theorem C7_counterexample :
    envC7.getAssignedSlices 0 5 = .ok (some [1, 2, 3]) ∧
    (verify_encoded_slices envC7 0 5 [] ⟨1, 2, 1⟩ []).1 =
      .error (.Internal "quorum_id out of bound") ∧
    (verification_error_to_status (.Internal "quorum_id out of bound")).code =
      GrpcCode.Internal ∧
    (verification_error_to_status .SliceMismatch).code = GrpcCode.InvalidArgument ∧
    GrpcCode.Internal ≠ GrpcCode.InvalidArgument := by
  refine ⟨rfl, by decide, rfl, rfl, by decide⟩

/-- C7 (amended): when the quorum count does not exceed the quorum id, slice
verification fails with the "quorum_id out of bound" domain error — carried
as the `Internal` verification-error variant and surfaced as gRPC `Internal` —
even when an assignment record exists, and the bound check precedes the
assigned-slices lookup (the store is never read: the only logged effect is
the chain lookup, for every assignment store). -/
theorem C7_bound_before_lookup (env : Env) (epoch quorum_id : Nat) (root : List Nat)
    (c : G1ProjPoint) (slices : List EncodedSlice) (qn : Nat)
    (hq : env.quorumCount epoch = .ok qn) (hb : qn ≤ quorum_id) :
    verify_encoded_slices env epoch quorum_id root c slices =
      (.error (.Internal "quorum_id out of bound"), [.chainQuorumLookup epoch]) ∧
    (verification_error_to_status (VerificationError.Internal "quorum_id out of bound")).code =
      GrpcCode.Internal := by
  refine ⟨?_, rfl⟩
  unfold verify_encoded_slices
  rw [hq]
  simp [hb]

/-- Witness for the amended C7 at a concrete environment whose assignment
store has a record for the queried key. -/
theorem C7_bound_before_lookup_witness :
    verify_encoded_slices envC7 0 7 [] ⟨1, 2, 1⟩ [] =
      (.error (.Internal "quorum_id out of bound"), [.chainQuorumLookup 0]) ∧
    (verification_error_to_status (VerificationError.Internal "quorum_id out of bound")).code =
      GrpcCode.Internal :=
  C7_bound_before_lookup envC7 0 7 [] ⟨1, 2, 1⟩ [] 5 rfl (by decide)

/-- Commitment bytes encoding the pair (1, 2), the curve generator. -/
def commitBytesGen : List Nat := [1] ++ List.replicate 31 0 ++ [2] ++ List.replicate 31 0

/-- A request with a well-formed root and commitment but malformed slice
bytes. -/
def reqC8 : SignRequest := ⟨0, 0, List.replicate 32 0, commitBytesGen, [[1, 2, 3]]⟩

/-- Environment for the C8 counterexample: the blob status is absent and the
slice codec rejects everything. -/
def envC8 : Env :=
  { envEx with
      getBlobStatus := fun _ _ _ => .ok none
      sliceDeser := fun _ => .error "malformed" }

/-- C8 as stated is refuted: for a request whose slice bytes are malformed
and whose blob status is absent, the batch fails with the status-gate error
(`Internal`, "blob not found"), not with the slice-decode `InvalidArgument`
error: slices are decoded only after the status gate. -/
theorem C8_counterexample :
    envC8.sliceDeser [1, 2, 3] = .error "malformed" ∧
    envC8.getBlobStatus 0 0 (List.replicate 32 0) = .ok none ∧
    (batch_sign_inner envC8 1 [reqC8]).1 = .error ⟨.Internal, "blob not found"⟩ ∧
    GrpcCode.Internal ≠ GrpcCode.InvalidArgument := by
  refine ⟨rfl, rfl, by decide, by decide⟩

/-- C8 (amended): root and commitment decoding complete before the
blob-status gate, but slice decoding happens only after it: whenever the
root and commitment decode and the status gate fails, the batch aborts with
the status error, for every slice codec — including one rejecting the
request's slice bytes. -/
theorem C8_status_gate_before_slice_decode (env : Env) (sk : Nat) (req : SignRequest)
    (rest : List SignRequest) (root : List Nat) (c : G1ProjPoint) (s : GrpcStatus)
    (hdr : decode_root req = .ok (root, c))
    (hcb : (check_blob_status env req.epoch req.quorum_id root).1 = .error s) :
    (batch_sign_inner env sk (req :: rest)).1 = .error s := by
  have hpr : (processRequest env sk req).1 = .error s := by
    rcases h2 : check_blob_status env req.epoch req.quorum_id root with ⟨r, eff⟩
    rw [h2] at hcb
    simp only at hcb
    subst hcb
    unfold processRequest
    simp only [hdr, h2]
  unfold batch_sign_inner
  rcases hp2 : processRequest env sk req with ⟨r2, eff2⟩
  rw [hp2] at hpr
  simp only at hpr
  subst hpr
  rfl

/-- Environment for the C8 witness: blob already verified, slice codec
rejecting everything. -/
def envC8w : Env :=
  { envEx with
      getBlobStatus := fun _ _ _ => .ok (some .VERIFIED)
      sliceDeser := fun _ => .error "malformed" }

/-- Witness for the amended C8: the already-verified status error surfaces
although the request's slice bytes are malformed. -/
theorem C8_status_gate_before_slice_decode_witness :
    (batch_sign_inner envC8w 1 [reqC8]).1 = .error ⟨.Internal, "blob verified already"⟩ :=
  C8_status_gate_before_slice_decode envC8w 1 reqC8 [] (List.replicate 32 0) ⟨1, 2, 1⟩
    ⟨.Internal, "blob verified already"⟩ (by decide) (by decide)

/-- Reply-level unfolding of the batch loop at a cons cell. -/
theorem batch_sign_inner_cons (env : Env) (sk : Nat) (req : SignRequest)
    (rest : List SignRequest) :
    (batch_sign_inner env sk (req :: rest)).1 =
      (match (processRequest env sk req).1 with
       | .error s => .error s
       | .ok value =>
         match (batch_sign_inner env sk rest).1 with
         | .error s => .error s
         | .ok sigs => .ok (value :: sigs)) := by
  have h1 : batch_sign_inner env sk (req :: rest) =
      (match processRequest env sk req with
       | (.error s, eff) => (.error s, eff)
       | (.ok value, eff) =>
         match batch_sign_inner env sk rest with
         | (.error s, eff2) => (.error s, eff ++ eff2)
         | (.ok sigs, eff2) => (.ok (value :: sigs), eff ++ eff2)) := rfl
  rw [h1]
  rcases hp : processRequest env sk req with ⟨r, eff⟩
  cases r with
  | error s => rfl
  | ok value =>
    rcases hbi : batch_sign_inner env sk rest with ⟨rr, eff2⟩
    cases rr <;> rfl

/-- A per-request run that contributes a signature contributes exactly the
predicted one. -/
theorem processRequest_ok_value (env : Env) (sk : Nat) (req : SignRequest) (value : List Nat)
    (h : (processRequest env sk req).1 = Except.ok value) :
    expectedSignature sk req = some value := by
  unfold processRequest at h
  cases hdr : decode_root req with
  | error s =>
    rw [hdr] at h
    simp at h
  | ok rc =>
    rcases rc with ⟨root, c⟩
    simp only [hdr] at h
    rcases hcb : check_blob_status env req.epoch req.quorum_id root with ⟨cr, eff1⟩
    simp only [hcb] at h
    cases cr with
    | error s => simp at h
    | ok u =>
      cases hde : decode_encoded_slices env req.encoded_slice with
      | error s =>
        simp only [hde] at h
        simp at h
      | ok slices =>
        simp only [hde] at h
        rcases hve : verify_encoded_slices env req.epoch req.quorum_id root c slices with
          ⟨vr, eff2⟩
        simp only [hve] at h
        cases vr with
        | error e => simp at h
        | ok u2 =>
          cases hps : env.putSlice req.epoch req.quorum_id root slices with
          | error e =>
            simp only [hps] at h
            simp at h
          | ok u3 =>
            simp only [hps] at h
            simp only [Except.ok.injEq] at h
            unfold expectedSignature
            simp only [hdr]
            rw [h]

/-- C1: the batch reply is all-or-nothing: either the call aborts with the
error of the first failing request (every earlier request having succeeded)
and exposes no signature, or every request succeeds and the reply carries
exactly one signature per request in submission order, each equal to the
hash-to-curve point of the decoded root, epoch, quorum and commitment
multiplied by the signer secret and serialized uncompressed. -/
theorem C1_batch_all_or_nothing (env : Env) (sk : Nat) (requests : List SignRequest) :
    (∃ s, ∃ k : Nat, ∃ req, (batch_sign_inner env sk requests).1 = Except.error s ∧
      requests[k]? = some req ∧ (processRequest env sk req).1 = Except.error s ∧
      ∀ j : Nat, j < k → ∀ rj, requests[j]? = some rj →
        ∃ v, (processRequest env sk rj).1 = Except.ok v) ∨
    (∃ sigs, (batch_sign_inner env sk requests).1 = Except.ok sigs ∧
      sigs.length = requests.length ∧
      ∀ i : Nat, ∀ req, requests[i]? = some req → sigs[i]? = expectedSignature sk req) := by
  induction requests with
  | nil =>
    right
    refine ⟨[], rfl, rfl, ?_⟩
    intro i req h
    simp at h
  | cons req rest ih =>
    rcases hp : (processRequest env sk req).1 with s | value
    · left
      refine ⟨s, 0, req, ?_, by simp, hp, ?_⟩
      · rw [batch_sign_inner_cons, hp]
      · intro j hj rj hrj
        exact absurd hj (Nat.not_lt_zero j)
    · rcases ih with ⟨s, k, req2, hb, hk, hperr, hpre⟩ | ⟨sigs, hb, hlen, hsig⟩
      · left
        refine ⟨s, k + 1, req2, ?_, ?_, hperr, ?_⟩
        · rw [batch_sign_inner_cons, hp, hb]
        · simpa using hk
        · intro j hj rj hrj
          cases j with
          | zero =>
            simp only [List.getElem?_cons_zero, Option.some.injEq] at hrj
            exact ⟨value, hrj ▸ hp⟩
          | succ j2 =>
            exact hpre j2 (by omega) rj (by simpa using hrj)
      · right
        refine ⟨value :: sigs, ?_, by simp [hlen], ?_⟩
        · rw [batch_sign_inner_cons, hp, hb]
        · intro i rq hrq
          cases i with
          | zero =>
            simp only [List.getElem?_cons_zero, Option.some.injEq] at hrq
            subst hrq
            rw [List.getElem?_cons_zero]
            exact (processRequest_ok_value env sk req value hp).symm
          | succ i2 =>
            rw [List.getElem?_cons_succ]
            exact hsig i2 rq (by simpa using hrq)
